import Mathlib

/-!
Shallow embedding of the rlox bytecode compiler and VM (tokenizer, single-pass
Pratt parser/compiler, chunk, stack VM) together with proofs settling the
frozen claims about its specification.

Modelling conventions:
* Rust `f64` is modelled by the exact (unnormalised) fraction type `F64` below;
  all programs appearing in the claims stay within the range where binary64
  arithmetic on them is exact, and none divides, so the model agrees with the
  Rust semantics on every input used here.
* Rust panics (`panic!`, `expect`, `todo!`, arithmetic underflow in debug
  builds, out-of-bounds `Vec` indexing) are modelled by the `Panicked` outcome,
  which aborts the whole computation; recoverable `Result` errors are the
  `Except InterpretError` layer, which carries the state at the point of the
  error (Rust methods mutate `&mut self` before returning `Err`, and several
  call sites discard the returned `Result`, continuing with the mutated state).
* Source text is treated as a list of ASCII characters, so byte positions and
  character positions coincide, exactly as the source assumes.
* Loops and recursion are driven by explicit fuel; fuel exhaustion is the
  distinct outcome `Panicked "out of fuel"`, never confused with a result.
-/

deriving instance DecidableEq for Except

/-- Outcome of a Rust panic: the process aborts with a message. -/
structure Panicked where
  msg : String
deriving DecidableEq, Repr

/-- Exact-fraction model of Rust `f64` (see the header comment). The numerator
and denominator are kept unnormalised; equality and ordering compare by
cross-multiplication, as binary64 compares values, not representations. -/
structure F64 where
  num : Int
  den : Int
deriving DecidableEq, Repr

/-- Numeric addition, modelling `f64` addition (exact on the inputs used). -/
def F64.add (a b : F64) : F64 := ⟨a.num * b.den + b.num * a.den, a.den * b.den⟩

/-- Numeric subtraction. -/
def F64.sub (a b : F64) : F64 := ⟨a.num * b.den - b.num * a.den, a.den * b.den⟩

/-- Numeric multiplication. -/
def F64.mul (a b : F64) : F64 := ⟨a.num * b.num, a.den * b.den⟩

/-- Numeric division (exact-fraction model; no claim exercises division). -/
def F64.div (a b : F64) : F64 := ⟨a.num * b.den, a.den * b.num⟩

/-- Numeric negation, modelling unary minus on `f64`. -/
def F64.neg (a : F64) : F64 := ⟨-a.num, a.den⟩

/-- Value equality of two numbers (`PartialEq` on `f64`): cross-multiplied. -/
def F64.beq (a b : F64) : Bool := a.num * b.den == b.num * a.den

/-- Strict order on numbers (`<` on `f64`); denominators stay positive on every
value the embedded programs build. -/
def F64.blt (a b : F64) : Bool := decide (a.num * b.den < b.num * a.den)

/-- Strict order `>` on numbers. -/
def F64.bgt (a b : F64) : Bool := F64.blt b a

/-- The number a decimal digit run denotes (`str.parse::<f64>()` on the digit
runs the scanner produces; exact for every literal in the claims). -/
def F64.ofNat (n : Nat) : F64 := ⟨Int.ofNat n, 1⟩

/-- Heap object (`Obj` in `opcode.rs`): only strings exist in the core. The
constructor is written lowercase because `String` would shadow the `String`
type inside the namespace. -/
inductive Obj where
  | string (str : String)
deriving DecidableEq, Repr

/-- Runtime values (`Value` in `opcode.rs`), constructors lowercased for the
same shadowing reason. `object` holds the referenced `Obj` by content:
`PartialEq` on `Value` compares the pointed-to contents, so reference identity
is unobservable. -/
inductive Value where
  | number (it : F64)
  | bool (it : Bool)
  | object (it : Obj)
  | nil
deriving DecidableEq, Repr

/-- `Value::is_number`. -/
def Value.isNumber : Value → Bool
  | .number _ => true
  | _ => false

/-- `Obj::is_string`. -/
def Obj.isString : Obj → Bool
  | .string _ => true

/-- `Value::is_string`. -/
def Value.isString : Value → Bool
  | .object it => it.isString
  | _ => false

/-- `Value::is_truthy` in `opcode.rs` (lines 110-117): Nil is false, a Bool is
itself, a Number is truthy iff non-zero, and an Object is false (the source
comments this variant with an explicit TODO). -/
def Value.isTruthy : Value → Bool
  | .nil => false
  | .bool it => it
  | .number it => !(it.beq (F64.ofNat 0))
  | .object _ => false

/-- `PartialEq` on `Value`: same variant and same contents; numbers compare by
value; cross-variant comparisons are false. -/
def Value.beqV : Value → Value → Bool
  | .number a, .number b => a.beq b
  | .bool a, .bool b => a == b
  | .object a, .object b => a == b
  | .nil, .nil => true
  | _, _ => false

/-- `Value::as_number`, which panics on every non-number. -/
def Value.asNumberP : Value → Except Panicked F64
  | .number it => .ok it
  | _ => .error ⟨"Value is not a number"⟩

/-- `Value::as_string`, which panics on every non-string. -/
def Value.asStringP : Value → Except Panicked String
  | .object (.string str) => .ok str
  | _ => .error ⟨"Value is not a string"⟩

/-- Token kinds (`TokenKind` in `tokenizer.rs`). -/
inductive TokenKind where
  | LeftParen | RightParen | LeftBrace | RightBrace
  | Comma | Dot | Minus | Plus | Semicolon | Slash | Star
  | Bang | BangEqual | Equal | EqualEqual
  | Greater | GreaterEqual | Less | LessEqual
  | Identifier | String | Number
  | And | Class | Else | False | For | Fun | If | Nil | Or
  | Print | Return | Super | This | True | Var | While
  | Error | Eof
deriving DecidableEq, Repr

/-- A scanned token (`Token` in `tokenizer.rs`): kind, source slice, byte
offset of the slice, and the line it starts on. -/
structure Token where
  kind : TokenKind
  source : String
  offset : Nat
  line : Nat
deriving DecidableEq, Repr

/-- `Token::is_kind`. -/
def Token.isKind (t : Token) (kind : TokenKind) : Bool := t.kind == kind

/-- Scanner state (`Tokenizer` in `tokenizer.rs`): the source as ASCII
characters, the checkpoint marking the start of the token in progress, the
cursor `current`, and the current line. -/
structure Tok where
  src : List Char
  checkpoint : Nat
  current : Nat
  line : Nat
deriving DecidableEq, Repr

/-- `Tokenizer::new`. -/
def Tok.new (source : String) : Tok := ⟨source.data, 0, 0, 0⟩

/-- `u8::is_ascii_whitespace`: space, tab, newline, form feed, carriage
return. -/
def isAsciiWhitespace (c : Char) : Bool :=
  c == ' ' || c == '\t' || c == '\n' || c == '\x0c' || c == '\r'

/-- `ByteExtensions::is_newline`. -/
def isNewlineByte (c : Char) : Bool := c == '\n'

/-- `u8::is_ascii_digit`. -/
def isAsciiDigit (c : Char) : Bool := '0' ≤ c && c ≤ '9'

/-- `ByteExtensions::is_alphabetic_or_underscore`. -/
def isAlphabeticOrUnderscore (c : Char) : Bool :=
  ('a' ≤ c && c ≤ 'z') || ('A' ≤ c && c ≤ 'Z') || c == '_'

/-- `Tokenizer::advance_byte`. -/
def Tok.advanceByte (t : Tok) : Tok := { t with current := t.current + 1 }

/-- `Tokenizer::advance_bytes`. -/
def Tok.advanceBytes (t : Tok) (amount : Nat) : Tok :=
  { t with current := t.current + amount }

/-- `Tokenizer::advance_line`. -/
def Tok.advanceLine (t : Tok) : Tok := { t with line := t.line + 1 }

/-- `Tokenizer::peek_byte`. -/
def Tok.peekByte (t : Tok) : Option Char :=
  if t.current ≥ t.src.length then none else t.src.get? t.current

/-- `Tokenizer::take_byte`: always advances, returns the byte that was at the
old cursor when it was in range. -/
def Tok.takeByte (t : Tok) : Option Char × Tok :=
  let current := t.current
  let t := t.advanceByte
  if t.current > t.src.length then (none, t) else (t.src.get? current, t)

/-- `Tokenizer::peek_bytes`. -/
def Tok.peekBytes (t : Tok) (amount : Nat) : Option (List Char) :=
  if t.current + amount > t.src.length then none
  else some ((t.src.drop t.current).take amount)

/-- `Tokenizer::checkpoint`: records the cursor as the token start. -/
def Tok.checkpointHere (t : Tok) : Option Char × Tok :=
  let t := { t with checkpoint := t.current }
  if t.checkpoint ≥ t.src.length then (none, t)
  else (t.src.get? t.checkpoint, t)

/-- `Tokenizer::take_whitespace` (lines 172-184 of `tokenizer.rs`): skip ASCII
whitespace, bumping `line` on each newline. Fuel-driven so that the kernel can
evaluate it; any fuel at least the remaining length is enough. -/
def Tok.takeWhitespace (fuel : Nat) (t : Tok) : Tok :=
  match fuel with
  | 0 => t
  | fuel + 1 =>
    match t.peekByte with
    | some it =>
      if isAsciiWhitespace it then
        Tok.takeWhitespace fuel ((if isNewlineByte it then t.advanceLine else t).advanceByte)
      else t
    | none => t

/-- `Tokenizer::take_comment` (lines 186-192 of `tokenizer.rs`): consume bytes
up to and including the next newline. Note that it never touches `line`. -/
def Tok.takeComment (fuel : Nat) (t : Tok) : Tok :=
  match fuel with
  | 0 => t
  | fuel + 1 =>
    match t.takeByte with
    | (some it, t) => if it == '\n' then t else Tok.takeComment fuel t
    | (none, t) => t

/-- `Tokenizer::match_bytes`: keyword match plus boundary check. -/
def Tok.matchBytes (t : Tok) (what : String) : Bool :=
  let isMatch := t.peekBytes what.length == some what.data
  let isExact :=
    match t.src.get? (t.current + what.length) with
    | some it => !(isAlphabeticOrUnderscore it || isAsciiDigit it)
    | none => true
  isMatch && isExact

/-- `Tokenizer::create_token`: token over `src[checkpoint..current]`. -/
def Tok.createToken (t : Tok) (kind : TokenKind) : Token :=
  ⟨kind, ⟨(t.src.drop t.checkpoint).take (t.current - t.checkpoint)⟩, t.checkpoint, t.line⟩

/-- `Tokenizer::make_token_with_length`. -/
def Tok.makeTokenWithLength (t : Tok) (kind : TokenKind) (length : Nat) :
    Option Token × Tok :=
  let (_, t) := t.checkpointHere
  let t := t.advanceBytes length
  (some (t.createToken kind), t)

/-- Loop body of `Tokenizer::make_string`: consume bytes until the closing
quote; an unterminated string yields no token (ending the stream). -/
def Tok.makeStringLoop (fuel : Nat) (t : Tok) : Option Token × Tok :=
  match fuel with
  | 0 => (none, t)
  | fuel + 1 =>
    match t.takeByte with
    | (some it, t) =>
      if it == '"' then (some (t.createToken .String), t)
      else Tok.makeStringLoop fuel t
    | (none, t) => (none, t)

/-- `Tokenizer::make_string`. -/
def Tok.makeString (fuel : Nat) (t : Tok) : Option Token × Tok :=
  let (_, t) := t.checkpointHere
  Tok.makeStringLoop fuel t.advanceByte

/-- Loop body of `Tokenizer::make_number`: consume the run of digits. -/
def Tok.makeNumberLoop (fuel : Nat) (t : Tok) : Tok :=
  match fuel with
  | 0 => t
  | fuel + 1 =>
    match t.peekByte with
    | some it => if isAsciiDigit it then Tok.makeNumberLoop fuel t.advanceByte else t
    | none => t

/-- `Tokenizer::make_number`. -/
def Tok.makeNumber (fuel : Nat) (t : Tok) : Option Token × Tok :=
  let (_, t) := t.checkpointHere
  let t := Tok.makeNumberLoop fuel t
  (some (t.createToken .Number), t)

/-- Loop body of `Tokenizer::make_identifier`. -/
def Tok.makeIdentifierLoop (fuel : Nat) (t : Tok) : Tok :=
  match fuel with
  | 0 => t
  | fuel + 1 =>
    match t.peekByte with
    | some it =>
      if isAlphabeticOrUnderscore it || isAsciiDigit it then
        Tok.makeIdentifierLoop fuel t.advanceByte
      else t
    | none => t

/-- `Tokenizer::make_identifier`. -/
def Tok.makeIdentifier (fuel : Nat) (t : Tok) : Option Token × Tok :=
  let (_, t) := t.checkpointHere
  let t := Tok.makeIdentifierLoop fuel t
  (some (t.createToken .Identifier), t)

/-- Inner fuel handed to the scanning loops: the whole remaining source always
suffices. -/
def Tok.innerFuel (t : Tok) : Nat := t.src.length + 1

/-- `Tokenizer::token` (the big dispatch in `tokenizer.rs`, lines 290-352),
recursing after whitespace and line comments. -/
def Tok.token (fuel : Nat) (t : Tok) : Option Token × Tok :=
  match fuel with
  | 0 => (none, t)
  | fuel + 1 =>
    match t.peekByte with
    | none => (none, t)
    | some c =>
      if isAsciiWhitespace c then Tok.token fuel (t.takeWhitespace t.innerFuel)
      else if c == '(' then t.makeTokenWithLength .LeftParen 1
      else if c == ')' then t.makeTokenWithLength .RightParen 1
      else if c == '\x7b' then t.makeTokenWithLength .LeftBrace 1
      else if c == '\x7d' then t.makeTokenWithLength .RightBrace 1
      else if c == ';' then t.makeTokenWithLength .Semicolon 1
      else if c == ',' then t.makeTokenWithLength .Comma 1
      else if c == '.' then t.makeTokenWithLength .Dot 1
      else if c == '-' then t.makeTokenWithLength .Minus 1
      else if c == '+' then t.makeTokenWithLength .Plus 1
      else if c == '*' then t.makeTokenWithLength .Star 1
      else if c == '/' then
        if t.peekBytes 2 == some ['/', '/'] then Tok.token fuel (t.takeComment t.innerFuel)
        else t.makeTokenWithLength .Slash 1
      else if c == '!' then
        if t.peekBytes 2 == some ['!', '='] then t.makeTokenWithLength .BangEqual 2
        else t.makeTokenWithLength .Bang 1
      else if c == '=' then
        if t.peekBytes 2 == some ['=', '='] then t.makeTokenWithLength .EqualEqual 2
        else t.makeTokenWithLength .Equal 1
      else if c == '<' then
        if t.peekBytes 2 == some ['<', '='] then t.makeTokenWithLength .LessEqual 2
        else t.makeTokenWithLength .Less 1
      else if c == '>' then
        if t.peekBytes 2 == some ['>', '='] then t.makeTokenWithLength .GreaterEqual 2
        else t.makeTokenWithLength .Greater 1
      else if c == '"' then t.makeString t.innerFuel
      else if isAsciiDigit c then t.makeNumber t.innerFuel
      else if t.matchBytes "and" then t.makeTokenWithLength .And 3
      else if t.matchBytes "class" then t.makeTokenWithLength .Class 5
      else if t.matchBytes "else" then t.makeTokenWithLength .Else 4
      else if t.matchBytes "if" then t.makeTokenWithLength .If 2
      else if t.matchBytes "nil" then t.makeTokenWithLength .Nil 3
      else if t.matchBytes "or" then t.makeTokenWithLength .Or 2
      else if t.matchBytes "print" then t.makeTokenWithLength .Print 5
      else if t.matchBytes "return" then t.makeTokenWithLength .Return 6
      else if t.matchBytes "super" then t.makeTokenWithLength .Super 5
      else if t.matchBytes "var" then t.makeTokenWithLength .Var 3
      else if t.matchBytes "while" then t.makeTokenWithLength .While 5
      else if t.matchBytes "false" then t.makeTokenWithLength .False 5
      else if t.matchBytes "for" then t.makeTokenWithLength .For 3
      else if t.matchBytes "fun" then t.makeTokenWithLength .Fun 3
      else if t.matchBytes "this" then t.makeTokenWithLength .This 4
      else if t.matchBytes "true" then t.makeTokenWithLength .True 4
      else if isAlphabeticOrUnderscore c then t.makeIdentifier t.innerFuel
      else (none, t)

/-- Driver of the `Iterator` instance: collect tokens until the stream ends. -/
def Tok.tokenizeLoop (fuel : Nat) (t : Tok) : List Token :=
  match fuel with
  | 0 => []
  | fuel + 1 =>
    match Tok.token t.innerFuel t with
    | (some tok, t) => tok :: Tok.tokenizeLoop fuel t
    | (none, _) => []

/-- Tokenize a whole source string (the parser consumes the lazy stream in
order, so materialising it as a list is observationally identical). -/
def tokenize (source : String) : List Token :=
  let t := Tok.new source
  Tok.tokenizeLoop t.innerFuel t

example : (tokenize "*\n!\n.").map Token.line = [0, 1, 2] := by decide
example : (tokenize "*\n!\n.").map Token.kind = [.Star, .Bang, .Dot] := by decide
example : (tokenize "// c \n!").map Token.line = [0] := by decide
example : (tokenize "and andand").map Token.kind = [.And, .Identifier] := by decide

/-- `CompilationErrorReason` in `vm.rs` (spelling kept from the source). -/
inductive CompilationErrorReason where
  | NotEnoughTokens
  | TooMayTokens
  | ParseFloatError
  | ExpectedRightParen
  | ExpectedPrefix
  | ExpectedBinaryOperator
  | ScopeUnderflow
  | ExpectedDifferentToken (expected : TokenKind) (received : TokenKind)
deriving DecidableEq, Repr

/-- `InterpretError` in `vm.rs`. The `Io` payload is irrelevant to the core. -/
inductive InterpretError where
  | LoadError
  | CompileError (reason : CompilationErrorReason)
  | RuntimeError
  | StackUnderflowError
  | RuntimeErrorWithReason (reason : String)
  | JumpTooFar
  | Io
deriving DecidableEq, Repr

/-- Opcodes. The vm/chunk/disassembler agree on one `OpCode` enum with these
variants; the particular discriminant bytes are never observable (the compiler
writes `op as Byte` and the VM decodes with the inverse `try_from`), so this
embedding fixes an order extending the one in `opcode.rs`. -/
inductive OpCode where
  | Constant | Nil | True | False | String
  | Equal | Greater | Less
  | Not
  | Add | Subtract | Multiply | Divide | Negate
  | Print | Pop
  | DefineGlobal | GetGlobal | SetGlobal | GetLocal | SetLocal
  | JumpIfFalse | JumpIfTrue | Jump | Loop
  | Return
deriving DecidableEq, Repr

/-- `op as Byte`: the discriminant of an opcode. -/
def OpCode.toByte : OpCode → Nat
  | .Constant => 0 | .Nil => 1 | .True => 2 | .False => 3 | .String => 4
  | .Equal => 5 | .Greater => 6 | .Less => 7
  | .Not => 8
  | .Add => 9 | .Subtract => 10 | .Multiply => 11 | .Divide => 12 | .Negate => 13
  | .Print => 14 | .Pop => 15
  | .DefineGlobal => 16 | .GetGlobal => 17 | .SetGlobal => 18
  | .GetLocal => 19 | .SetLocal => 20
  | .JumpIfFalse => 21 | .JumpIfTrue => 22 | .Jump => 23 | .Loop => 24
  | .Return => 25

/-- `OpCode::try_from(Byte)`: decode a byte back into an opcode; bytes beyond
the last discriminant are rejected. -/
def OpCode.ofByte (b : Nat) : Option OpCode :=
  if b == 0 then some .Constant else if b == 1 then some .Nil
  else if b == 2 then some .True else if b == 3 then some .False
  else if b == 4 then some .String else if b == 5 then some .Equal
  else if b == 6 then some .Greater else if b == 7 then some .Less
  else if b == 8 then some .Not else if b == 9 then some .Add
  else if b == 10 then some .Subtract else if b == 11 then some .Multiply
  else if b == 12 then some .Divide else if b == 13 then some .Negate
  else if b == 14 then some .Print else if b == 15 then some .Pop
  else if b == 16 then some .DefineGlobal else if b == 17 then some .GetGlobal
  else if b == 18 then some .SetGlobal else if b == 19 then some .GetLocal
  else if b == 20 then some .SetLocal else if b == 21 then some .JumpIfFalse
  else if b == 22 then some .JumpIfTrue else if b == 23 then some .Jump
  else if b == 24 then some .Loop else if b == 25 then some .Return
  else none

example : ∀ o : OpCode, OpCode.ofByte o.toByte = some o := fun o => by cases o <;> rfl

/-- How far to jump the instruction pointer (`Jump` in `chunk.rs`); the stored
distance always fits in 16 bits. -/
structure Jump where
  distance : Nat
deriving DecidableEq, Repr

/-- `Jump::forward` (`chunk.rs` lines 32-44): `distance = to - from - 2`, where
`from` is the address of the first placeholder byte and `to` the current code
length; `JumpTooFar` when the distance exceeds `u16::MAX`. The `usize`
subtraction underflows (debug panic) when `to < from + 2`. -/
def Jump.forward (from_ to_ : Nat) : Except Panicked (Except InterpretError Jump) :=
  if to_ < from_ + 2 then .error ⟨"attempt to subtract with overflow"⟩
  else
    let distance := to_ - from_ - 2
    if distance > 65535 then .ok (.error .JumpTooFar)
    else .ok (.ok ⟨distance⟩)

/-- `Jump::backward` (`chunk.rs` lines 45-58): `distance = from + 2 + 1 - to`,
the amount the VM must subtract after `ip` has advanced past the 3-byte LOOP
instruction. -/
def Jump.backward (from_ to_ : Nat) : Except Panicked (Except InterpretError Jump) :=
  if from_ + 2 + 1 < to_ then .error ⟨"attempt to subtract with overflow"⟩
  else
    let distance := from_ + 2 + 1 - to_
    if distance > 65535 then .ok (.error .JumpTooFar)
    else .ok (.ok ⟨distance⟩)

/-- `Jump::to_bytes`: big-endian split, `(higher, lower)`. -/
def Jump.toBytes (j : Jump) : Nat × Nat := (j.distance / 256, j.distance % 256)

/-- `Jump::from_bytes`: `(higher << 8) | lower`. -/
def Jump.fromBytes (higher lower : Nat) : Jump := ⟨higher * 256 + lower⟩

/-- `Codes` (`chunk/codes.rs`): the byte array of machine code. -/
abbrev Codes : Type := List Nat

/-- `Codes::add`: push a byte, return its index. -/
def Codes.add (c : Codes) (byte : Nat) : Codes × Nat :=
  (List.append c [byte], List.length c)

/-- `Codes::get`. -/
def Codes.get (c : Codes) (index : Nat) : Option Nat := List.get? c index

/-- `Codes::patch`: overwrite the byte at `at` (Vec indexing panics when out of
bounds). -/
def Codes.patch (c : Codes) (at_ : Nat) (byte : Nat) : Except Panicked Codes :=
  if at_ < List.length c then .ok (List.set c at_ byte)
  else .error ⟨"index out of bounds"⟩

/-- `Codes::len`. -/
def Codes.len (c : Codes) : Nat := List.length c

/-- `Lines` (`lines.rs`): line number for each code byte. `insert` is only ever
called with `index = len`, where `Vec::insert` appends. -/
abbrev Lines : Type := List Nat

/-- `Lines::insert` (`Vec::insert` semantics for `index ≤ len`). -/
def Lines.insert (l : Lines) (index : Nat) (element : Nat) : Lines :=
  List.append (List.take index l) (element :: List.drop index l)

/-- `Constants` (`chunk/constants.rs`). -/
abbrev Constants : Type := List Value

/-- `Constants::add`: push, return the index to look the constant up again. -/
def Constants.add (c : Constants) (value : Value) : Constants × Nat :=
  (List.append c [value], List.length c)

/-- `Constants::get`. -/
def Constants.get (c : Constants) (index : Nat) : Option Value := List.get? c index

/-- `Strings` (`chunk.rs`): static strings part of the binary. -/
abbrev Strings : Type := List String

/-- `Strings::add`. -/
def Strings.add (s : Strings) (string : String) : Strings × Nat :=
  (List.append s [string], List.length s)

/-- `Strings::get`. -/
def Strings.get (s : Strings) (index : Nat) : Option String := List.get? s index

/-- `Chunk` (`chunk.rs`): code bytes, constant pool, string pool, line table. -/
structure Chunk where
  code : Codes
  constants : Constants
  strings : Strings
  lines : Lines
deriving DecidableEq, Repr

/-- `Chunk::new`. -/
def Chunk.new : Chunk := ⟨[], [], [], []⟩

/-- `Chunk::write_byte`: append a byte and record its source line. -/
def Chunk.writeByte (c : Chunk) (byte : Nat) (line : Nat) : Chunk :=
  let (code, at_) := c.code.add byte
  { c with code := code, lines := c.lines.insert at_ line }

/-- `Chunk::add_constant`. -/
def Chunk.addConstant (c : Chunk) (value : Value) : Chunk × Nat :=
  let (constants, at_) := c.constants.add value
  ({ c with constants := constants }, at_)

/-- `Chunk::write_code`. -/
def Chunk.writeCode (c : Chunk) (op : OpCode) (line : Nat) : Chunk :=
  c.writeByte op.toByte line

/-- `Chunk::write_jump`: emit the opcode and a `(0,0)` placeholder, returning
the address of the first placeholder byte. -/
def Chunk.writeJump (c : Chunk) (op : OpCode) (line : Nat) : Chunk × Nat :=
  let (higher, lower) := (Jump.mk 0).toBytes
  let c := c.writeByte op.toByte line
  let c := c.writeByte higher line
  let c := c.writeByte lower line
  (c, c.code.len - 2)

/-- `Chunk::patch_jump`: overwrite the placeholder at `at` with the forward
distance to the current code length. -/
def Chunk.patchJump (c : Chunk) (at_ : Nat) :
    Except Panicked (Except InterpretError Chunk) := do
  match ← Jump.forward at_ c.code.len with
  | .error e => return .error e
  | .ok j =>
    let (higher, lower) := j.toBytes
    let code ← c.code.patch at_ higher
    let code ← code.patch (at_ + 1) lower
    return .ok { c with code := code }

/-- `Chunk::write_loop`: emit LOOP with the backward distance to `to`. -/
def Chunk.writeLoop (c : Chunk) (to_ : Nat) (line : Nat) :
    Except Panicked (Except InterpretError Chunk) := do
  match ← Jump.backward c.code.len to_ with
  | .error e => return .error e
  | .ok j =>
    let (higher, lower) := j.toBytes
    let c := c.writeByte OpCode.Loop.toByte line
    let c := c.writeByte higher line
    let c := c.writeByte lower line
    return .ok c

/-- `Chunk::write_constant`: add to the pool and emit `CONSTANT <index>`; the
`Byte::try_from(index).expect(..)` panics when the index exceeds a byte. -/
def Chunk.writeConstant (c : Chunk) (value : Value) (line : Nat) :
    Except Panicked Chunk :=
  let (c, index) := c.addConstant value
  if index > 255 then .error ⟨"Constant added at index out of range for byte"⟩
  else .ok ((c.writeCode .Constant line).writeByte index line)

/-- `Chunk::write_define_global_var`. -/
def Chunk.writeDefineGlobalVar (c : Chunk) (str : String) (line : Nat) :
    Except Panicked Chunk :=
  let (strings, index) := c.strings.add str
  let c := { c with strings := strings }
  if index > 255 then .error ⟨"Global variable name added at index out of range for byte"⟩
  else .ok ((c.writeCode .DefineGlobal line).writeByte index line)

/-- `Chunk::write_set_global_var`. -/
def Chunk.writeSetGlobalVar (c : Chunk) (str : String) (line : Nat) :
    Except Panicked Chunk :=
  let (strings, index) := c.strings.add str
  let c := { c with strings := strings }
  if index > 255 then .error ⟨"Global variable name added at index out of range for byte"⟩
  else .ok ((c.writeCode .SetGlobal line).writeByte index line)

/-- `Chunk::write_get_global_var`. -/
def Chunk.writeGetGlobalVar (c : Chunk) (str : String) (line : Nat) :
    Except Panicked Chunk :=
  let (strings, index) := c.strings.add str
  let c := { c with strings := strings }
  if index > 255 then .error ⟨"Global variable name added at index out of range for byte"⟩
  else .ok ((c.writeCode .GetGlobal line).writeByte index line)

/-- `Chunk::write_set_local_var`. -/
def Chunk.writeSetLocalVar (c : Chunk) (localsIndex : Nat) (line : Nat) :
    Except Panicked Chunk :=
  if localsIndex > 255 then .error ⟨"Local variable name added at index out of range for byte"⟩
  else .ok ((c.writeCode .SetLocal line).writeByte localsIndex line)

/-- `Chunk::write_get_local_var`. -/
def Chunk.writeGetLocalVar (c : Chunk) (localsIndex : Nat) (line : Nat) :
    Except Panicked Chunk :=
  if localsIndex > 255 then .error ⟨"Local variable name added at index out of range for byte"⟩
  else .ok ((c.writeCode .GetLocal line).writeByte localsIndex line)

/-- `Chunk::write_string`: intern into the string pool and emit `STRING <i>`. -/
def Chunk.writeString (c : Chunk) (str : String) (line : Nat) :
    Except Panicked Chunk :=
  let (strings, index) := c.strings.add str
  let c := { c with strings := strings }
  if index > 255 then .error ⟨"String added at index out of range for byte"⟩
  else .ok ((c.writeCode .String line).writeByte index line)

/-- `Chunk::read_byte`. -/
def Chunk.readByte (c : Chunk) (index : Nat) : Option Nat := c.code.get index

/-- `Chunk::read_jump`. -/
def Chunk.readJump (c : Chunk) (index : Nat) : Option Jump := do
  let higher ← c.readByte index
  let lower ← c.readByte (index + 1)
  return Jump.fromBytes higher lower

/-- `Chunk::read_constant`. -/
def Chunk.readConstant (c : Chunk) (index : Nat) : Option Value := do
  let i ← c.readByte index
  c.constants.get i

/-- `Chunk::read_string`. -/
def Chunk.readString (c : Chunk) (index : Nat) : Option String := do
  let i ← c.readByte index
  c.strings.get i

/-- State-passing computation with two error layers: `Panicked` aborts the
whole process; an `InterpretError` is an ordinary `Result::Err` value, so it
carries the state already mutated through `&mut self` (Rust call sites may
discard it and continue from that state). -/
def EM (σ α : Type) : Type := σ → Except Panicked (Except InterpretError α × σ)

instance : Monad (EM σ) where
  pure a := fun st => .ok (.ok a, st)
  bind x f := fun st =>
    match x st with
    | .error p => .error p
    | .ok (.error e, st) => .ok (.error e, st)
    | .ok (.ok a, st) => f a st

/-- Return `Err(e)` from the current function (the `Err(..)?` idiom). -/
def EM.throw (e : InterpretError) : EM σ α := fun st => .ok (.error e, st)

/-- Rust panic: abort everything. -/
def EM.panicWith (msg : String) : EM σ α := fun _ => .error ⟨msg⟩

/-- Read the state (`&self`). -/
def EM.get : EM σ σ := fun st => .ok (.ok st, st)

/-- Replace the state (`&mut self`). -/
def EM.set (st : σ) : EM σ Unit := fun _ => .ok (.ok (), st)

/-- Update the state. -/
def EM.modify (f : σ → σ) : EM σ Unit := fun st => .ok (.ok (), f st)

/-- Lift a panic-only computation. -/
def EM.liftP (x : Except Panicked α) : EM σ α := fun st =>
  match x with
  | .error p => .error p
  | .ok a => .ok (.ok a, st)

/-- Lift a computation with both error layers. -/
def EM.liftPE (x : Except Panicked (Except InterpretError α)) : EM σ α := fun st =>
  match x with
  | .error p => .error p
  | .ok (.error e) => .ok (.error e, st)
  | .ok (.ok a) => .ok (.ok a, st)

/-- Rust's discarded `Result`: run the call for its effects on the state and
drop an `Err` outcome (a panic still aborts). Used exactly where the source
writes `self.f(..);` without `?` on a `Result`-returning call. -/
def EM.swallow (x : EM σ α) : EM σ Unit := fun st =>
  match x st with
  | .error p => .error p
  | .ok (_, st) => .ok (.ok (), st)

/-- Run an `Option`-returning accessor and replace `None` by an error
(`ok_or`). -/
def EM.okOr (x : Option α) (e : InterpretError) : EM σ α :=
  match x with
  | some a => pure a
  | none => EM.throw e

/-- `LocalVar` in `compiler.rs`: a name and the scope depth it was declared
at. -/
structure LocalVar where
  name : String
  scopeDepth : Int
deriving DecidableEq, Repr

/-- `LocalVarResolution` in `compiler.rs`. -/
inductive LocalVarResolution where
  | NotFound
  | FoundAt (at_ : Nat)
deriving DecidableEq, Repr

/-- `Compiler` in `compiler.rs`: the locals table and current scope depth. -/
structure Compiler where
  locals : List LocalVar
  scopeDepth : Int
deriving DecidableEq, Repr

/-- `Compiler::new`. -/
def Compiler.new : Compiler := ⟨[], 0⟩

/-- `Compiler::begin_scope` (always returns `Ok`). -/
def Compiler.beginScope (c : Compiler) : Compiler :=
  { c with scopeDepth := c.scopeDepth + 1 }

/-- `Compiler::end_scope`: count the locals declared at the closing depth
(scanning the whole table in reverse), drop that many from the end, decrement
the depth, and return the count; `ScopeUnderflow` when no scope is open. -/
def Compiler.endScope (c : Compiler) : Except InterpretError (Nat × Compiler) :=
  if c.scopeDepth < 1 then .error (.CompileError .ScopeUnderflow)
  else
    let count := (c.locals.filter (fun v => v.scopeDepth == c.scopeDepth)).length
    .ok (count,
      { c with
        locals := c.locals.take (c.locals.length - count)
        scopeDepth := c.scopeDepth - 1 })

/-- `Compiler::in_local_scope`. -/
def Compiler.inLocalScope (c : Compiler) : Bool := c.scopeDepth > 0

/-- Reverse walk of `Compiler::is_in_scope_name_collision`: stop at the first
local from an enclosing (lower) scope; report a collision on a name match in
the current scope. -/
def collisionGo (depth : Int) (name : String) : List LocalVar → Bool
  | [] => false
  | v :: rest =>
    if v.scopeDepth < depth then false
    else if v.name == name then true
    else collisionGo depth name rest

/-- `Compiler::is_in_scope_name_collision`. -/
def Compiler.isInScopeNameCollision (c : Compiler) (name : String) : Bool :=
  collisionGo c.scopeDepth name c.locals.reverse

/-- `Compiler::add_local_var`: reject duplicates in the current scope, else
append and return the new index (which mirrors the runtime stack slot). -/
def Compiler.addLocalVar (c : Compiler) (name : String) :
    Except InterpretError (Nat × Compiler) :=
  if c.isInScopeNameCollision name then
    .error (.RuntimeErrorWithReason "Already a variable with this name in this scope")
  else
    .ok (c.locals.length, { c with locals := c.locals ++ [⟨name, c.scopeDepth⟩] })

/-- Reverse walk of `Compiler::resolve_local_variable` over the indexed
locals. -/
def resolveGo (name : String) : List (Nat × LocalVar) → LocalVarResolution
  | [] => .NotFound
  | (i, v) :: rest => if v.name == name then .FoundAt i else resolveGo name rest

/-- `Compiler::resolve_local_variable`: newest binding first (shadowing). -/
def Compiler.resolveLocalVariable (c : Compiler) (name : String) : LocalVarResolution :=
  resolveGo name c.locals.enum.reverse

/-- Parser state (`Parser` in `parser.rs`): the not-yet-consumed token stream,
the current token, the cached latest line, and the owned compiler and chunk. -/
structure PState where
  rest : List Token
  current : Option Token
  line : Nat
  compiler : Compiler
  chunk : Chunk
deriving DecidableEq, Repr

/-- Parser computations. -/
def PM (α : Type) : Type := EM PState α

instance : Monad PM := inferInstanceAs (Monad (EM PState))

/-- `Parser::new` applied to a token stream. -/
def PState.new (tokens : List Token) : PState :=
  ⟨tokens, none, 0, Compiler.new, Chunk.new⟩

/-- `Parser::current`: the current token or `NotEnoughTokens`. -/
def Parser.currentTok : PM Token := do
  match (← EM.get).current with
  | some t => pure t
  | none => EM.throw (.CompileError .NotEnoughTokens)

/-- `Parser::expect_done`. -/
def Parser.expectDone : PM Unit := do
  match (← EM.get).current with
  | none => pure ()
  | some _ => EM.throw (.CompileError .TooMayTokens)

/-- `Parser::advance`: pull the next token and cache its line. -/
def Parser.advance : PM Unit :=
  EM.modify fun st =>
    let current := st.rest.head?
    { st with
      rest := st.rest.tail
      current := current
      line := match current with | some token => token.line | none => st.line }

/-- `Parser::expect`: check the current token's kind without consuming it;
reports mismatches as `RuntimeErrorWithReason` (sic). -/
def Parser.expect (expected : TokenKind) (error : String) : PM Unit := do
  let c ← Parser.currentTok
  if c.kind == expected then pure ()
  else EM.throw (.RuntimeErrorWithReason error)

/-- `Parser::expect_advance`: consume the current token when it matches;
reports mismatches as `RuntimeErrorWithReason` (sic). -/
def Parser.expectAdvance (token : TokenKind) (error : String) : PM Unit := do
  let c ← Parser.currentTok
  if c.kind == token then Parser.advance
  else EM.throw (.RuntimeErrorWithReason error)

/-- `Parser::precedence`. -/
def Parser.precedence : TokenKind → Nat
  | .Equal => 10
  | .Or => 30
  | .And => 40
  | .EqualEqual | .BangEqual => 50
  | .Less | .Greater | .LessEqual | .GreaterEqual => 60
  | .Minus | .Plus => 70
  | .Star | .Slash => 80
  | .Bang => 90
  | _ => 0

/-- Current cached line. -/
def Parser.getLine : PM Nat := do pure (← EM.get).line

/-- Current code length (`Parser::mark_code`). -/
def Parser.markCode : PM Nat := do pure (← EM.get).chunk.code.len

/-- `Parser::emit_op_code`. -/
def Parser.emitOpCode (code : OpCode) (line : Nat) : PM Unit :=
  EM.modify fun st => { st with chunk := st.chunk.writeCode code line }

/-- `Parser::emit_op_codes`. -/
def Parser.emitOpCodes (code1 code2 : OpCode) (line : Nat) : PM Unit := do
  Parser.emitOpCode code1 line
  Parser.emitOpCode code2 line

/-- `Parser::emit_constant` (panics out of range, see `Chunk.writeConstant`). -/
def Parser.emitConstant (constant : Value) (line : Nat) : PM Unit := do
  let st ← EM.get
  let chunk ← EM.liftP (st.chunk.writeConstant constant line)
  EM.set { st with chunk := chunk }

/-- `Parser::emit_string`. -/
def Parser.emitString (str : String) (line : Nat) : PM Unit := do
  let st ← EM.get
  let chunk ← EM.liftP (st.chunk.writeString str line)
  EM.set { st with chunk := chunk }

/-- `Parser::emit_define_global_var`. -/
def Parser.emitDefineGlobalVar (str : String) (line : Nat) : PM Unit := do
  let st ← EM.get
  let chunk ← EM.liftP (st.chunk.writeDefineGlobalVar str line)
  EM.set { st with chunk := chunk }

/-- `Parser::emit_set_global_var`. -/
def Parser.emitSetGlobalVar (str : String) (line : Nat) : PM Unit := do
  let st ← EM.get
  let chunk ← EM.liftP (st.chunk.writeSetGlobalVar str line)
  EM.set { st with chunk := chunk }

/-- `Parser::emit_set_local_var`. -/
def Parser.emitSetLocalVar (at_ : Nat) (line : Nat) : PM Unit := do
  let st ← EM.get
  let chunk ← EM.liftP (st.chunk.writeSetLocalVar at_ line)
  EM.set { st with chunk := chunk }

/-- `Parser::emit_get_global_var`. -/
def Parser.emitGetGlobalVar (str : String) (line : Nat) : PM Unit := do
  let st ← EM.get
  let chunk ← EM.liftP (st.chunk.writeGetGlobalVar str line)
  EM.set { st with chunk := chunk }

/-- `Parser::emit_get_local_var`. -/
def Parser.emitGetLocalVar (at_ : Nat) (line : Nat) : PM Unit := do
  let st ← EM.get
  let chunk ← EM.liftP (st.chunk.writeGetLocalVar at_ line)
  EM.set { st with chunk := chunk }

/-- `Parser::emit_return`. -/
def Parser.emitReturn (line : Nat) : PM Unit := Parser.emitOpCode .Return line

/-- `Parser::emit_jump`: returns the code address to patch. -/
def Parser.emitJump (op : OpCode) : PM Nat := do
  let st ← EM.get
  let (chunk, at_) := st.chunk.writeJump op st.line
  EM.set { st with chunk := chunk }
  pure at_

/-- `Parser::patch_jump`. -/
def Parser.patchJump (offset : Nat) : PM Unit := do
  let st ← EM.get
  let chunk ← EM.liftPE (st.chunk.patchJump offset)
  EM.set { st with chunk := chunk }

/-- `Parser::emit_loop`. -/
def Parser.emitLoop (loopStart : Nat) : PM Unit := do
  let st ← EM.get
  let chunk ← EM.liftPE (st.chunk.writeLoop loopStart st.line)
  EM.set { st with chunk := chunk }

/-- `str::parse::<f64>()` restricted to the decimal digit runs the scanner
produces as Number tokens (exact for these inputs). -/
def parseF64 (s : String) : Option F64 :=
  if s.data ≠ [] && s.data.all isAsciiDigit then
    some (F64.ofNat (s.data.foldl (fun acc c => acc * 10 + (c.toNat - '0'.toNat)) 0))
  else none

/-- `Parser::parse_number`. -/
def Parser.parseNumber : PM Unit := do
  let c ← Parser.currentTok
  match parseF64 c.source with
  | none => EM.throw (.CompileError .ParseFloatError)
  | some it => do
    let line ← Parser.getLine
    Parser.advance
    Parser.emitConstant (.number it) line

/-- The `strip_prefix('"')..strip_suffix('"')` chain of `Parser::parse_string`,
panicking (`expect`) when a quote is missing. -/
def stripQuotes (s : String) : Except Panicked String :=
  match s.data with
  | '"' :: rest =>
    if rest.getLast? == some '"' then .ok ⟨rest.dropLast⟩
    else .error ⟨"source strings start with a quote"⟩
  | _ => .error ⟨"source strings start with a quote"⟩

/-- `Parser::parse_string`. -/
def Parser.parseString : PM Unit := do
  let c ← Parser.currentTok
  let it ← EM.liftP (stripQuotes c.source)
  let line ← Parser.getLine
  Parser.advance
  Parser.emitString it line

/-- `Parser::parse_literal`. -/
def Parser.parseLiteral : PM Unit := do
  let c ← Parser.currentTok
  match c.kind with
  | .False => do
    let line ← Parser.getLine
    Parser.advance
    Parser.emitOpCode .False line
  | .True => do
    let line ← Parser.getLine
    Parser.advance
    Parser.emitOpCode .True line
  | .Nil => do
    let line ← Parser.getLine
    Parser.advance
    Parser.emitOpCode .Nil line
  | _ => EM.throw (.CompileError .ExpectedPrefix)

/-- `Parser::parse_var_name`: reads the identifier's text; on any other token
the error is built first, and `advance` runs either way before returning. -/
def Parser.parseVarName : PM String := do
  let c ← Parser.currentTok
  let it : Except InterpretError String :=
    if c.kind == .Identifier then .ok c.source
    else .error (.RuntimeErrorWithReason "Expected variable name")
  Parser.advance
  match it with
  | .ok s => pure s
  | .error e => EM.throw e

/-- `Parser::declare_local_var`. -/
def Parser.declareLocalVar (name : String) : PM Unit := do
  let st ← EM.get
  match st.compiler.addLocalVar name with
  | .error e => EM.throw e
  | .ok (_, compiler) => EM.set { st with compiler := compiler }

/-- Emit POP `n` times (the `while local_vars_to_pop > 0` loop of
`Parser::parse_block`). -/
def Parser.emitPops : Nat → PM Unit
  | 0 => pure ()
  | n + 1 => do
    Parser.emitOpCode .Pop (← Parser.getLine)
    Parser.emitPops n

/-- Call tags for the mutually recursive parsing functions of `parser.rs`; a
single fuel-indexed dispatcher keeps the recursion structural so the kernel
can evaluate it. -/
inductive PTag where
  | pExpression (precedence : Nat)
  | pInfixLoop (precedence : Nat)
  | pBinary
  | pNamedVariable (precedence : Nat)
  | pGrouping
  | pUnary
  | pAnd
  | pOr
  | pReturn
  | pDeclaration
  | pStatement
  | pPrintStatement
  | pExpressionStatement
  | pVarDeclaration
  | pBlock
  | pBlockLoop
  | pIf
  | pWhile
  | pForLoop
  | pProgramLoop
deriving DecidableEq, Repr

/-- The parsing functions of `parser.rs`, one arm per function, faithful to
the source's control flow including every call site that discards a returned
`Result` (`EM.swallow`). Fuel only bounds the recursion depth. -/
def parseStep : Nat → PTag → PM Unit
  | 0, _ => EM.panicWith "out of fuel"
  | fuel + 1, f =>
    match f with
    | .pExpression precedence => do
      let c ← Parser.currentTok
      match c.kind with
      | .Number => Parser.parseNumber
      | .String => Parser.parseString
      | .False | .True | .Nil => Parser.parseLiteral
      | .LeftParen => parseStep fuel .pGrouping
      | .Minus | .Bang => parseStep fuel .pUnary
      | .Identifier => parseStep fuel (.pNamedVariable precedence)
      | .Return => parseStep fuel .pReturn
      | _ => EM.panicWith "not yet implemented"
      parseStep fuel (.pInfixLoop precedence)
    | .pInfixLoop precedence => do
      match (← EM.get).current with
      | some op =>
        if Parser.precedence op.kind > precedence then do
          parseStep fuel .pBinary
          parseStep fuel (.pInfixLoop precedence)
        else pure ()
      | none => pure ()
    | .pBinary => do
      let c ← Parser.currentTok
      let kind := c.kind
      let line ← Parser.getLine
      match kind with
      | .Plus => do
        Parser.advance
        parseStep fuel (.pExpression (Parser.precedence kind))
        EM.swallow (Parser.emitOpCode .Add line)
      | .Minus => do
        Parser.advance
        parseStep fuel (.pExpression (Parser.precedence kind))
        EM.swallow (Parser.emitOpCode .Subtract line)
      | .Star => do
        Parser.advance
        parseStep fuel (.pExpression (Parser.precedence kind))
        EM.swallow (Parser.emitOpCode .Multiply line)
      | .Slash => do
        Parser.advance
        parseStep fuel (.pExpression (Parser.precedence kind))
        EM.swallow (Parser.emitOpCode .Divide line)
      | .EqualEqual => do
        Parser.advance
        parseStep fuel (.pExpression (Parser.precedence kind))
        EM.swallow (Parser.emitOpCode .Equal line)
      | .BangEqual => do
        Parser.advance
        parseStep fuel (.pExpression (Parser.precedence kind))
        EM.swallow (Parser.emitOpCodes .Equal .Not line)
      | .Greater => do
        Parser.advance
        parseStep fuel (.pExpression (Parser.precedence kind))
        EM.swallow (Parser.emitOpCode .Greater line)
      | .GreaterEqual => do
        Parser.advance
        parseStep fuel (.pExpression (Parser.precedence kind))
        EM.swallow (Parser.emitOpCodes .Less .Not line)
      | .Less => do
        Parser.advance
        parseStep fuel (.pExpression (Parser.precedence kind))
        EM.swallow (Parser.emitOpCode .Less line)
      | .LessEqual => do
        Parser.advance
        parseStep fuel (.pExpression (Parser.precedence kind))
        EM.swallow (Parser.emitOpCodes .Greater .Not line)
      | .And => EM.swallow (parseStep fuel .pAnd)
      | .Or => EM.swallow (parseStep fuel .pOr)
      | _ => EM.throw (.CompileError .ExpectedBinaryOperator)
    | .pNamedVariable precedence => do
      let name ← Parser.parseVarName
      let line ← Parser.getLine
      let isLocalVar := (← EM.get).compiler.resolveLocalVariable name
      let canAssign := precedence ≤ Parser.precedence .Equal
      let c ← Parser.currentTok
      if c.kind == .Equal && canAssign then do
        Parser.advance
        parseStep fuel (.pExpression 0)
        Parser.expectAdvance .Semicolon "Expected ';' after variable declaration"
        match isLocalVar with
        | .FoundAt at_ => Parser.emitSetLocalVar at_ line
        | .NotFound => Parser.emitSetGlobalVar name line
      else if c.kind == .Equal then
        EM.throw (.RuntimeErrorWithReason "Invalid assignment target")
      else
        match isLocalVar with
        | .FoundAt at_ => Parser.emitGetLocalVar at_ line
        | .NotFound => Parser.emitGetGlobalVar name line
    | .pGrouping => do
      Parser.advance
      EM.swallow (parseStep fuel (.pExpression 0))
      let c ← Parser.currentTok
      match c.kind with
      | .RightParen => Parser.advance
      | _ => EM.throw (.CompileError .ExpectedRightParen)
    | .pUnary => do
      let c ← Parser.currentTok
      let kind := c.kind
      let line ← Parser.getLine
      match kind with
      | .Minus => do
        Parser.advance
        EM.swallow (parseStep fuel (.pExpression (Parser.precedence kind)))
        Parser.emitOpCode .Negate line
      | .Bang => do
        Parser.advance
        EM.swallow (parseStep fuel (.pExpression (Parser.precedence kind)))
        Parser.emitOpCode .Not line
      | _ => EM.throw (.CompileError .ExpectedPrefix)
    | .pAnd => do
      Parser.advance
      let jumpToFalse ← Parser.emitJump .JumpIfFalse
      parseStep fuel (.pExpression (Parser.precedence .And))
      let jumpToContinue ← Parser.emitJump .Jump
      Parser.patchJump jumpToFalse
      Parser.emitOpCode .False (← Parser.getLine)
      Parser.patchJump jumpToContinue
    | .pOr => do
      Parser.advance
      let jumpToTrue ← Parser.emitJump .JumpIfTrue
      parseStep fuel (.pExpression (Parser.precedence .Or))
      let jumpToContinue ← Parser.emitJump .Jump
      Parser.patchJump jumpToTrue
      Parser.emitOpCode .True (← Parser.getLine)
      Parser.patchJump jumpToContinue
    | .pReturn => do
      Parser.advance
      let c ← Parser.currentTok
      EM.swallow
        (match c.kind with
        | .Semicolon => do Parser.emitOpCode .Nil (← Parser.getLine)
        | _ => parseStep fuel (.pExpression 0))
      Parser.expectAdvance .Semicolon "Expected ';' after variable declaration"
      Parser.emitOpCode .Return (← Parser.getLine)
    | .pDeclaration => do
      let c ← Parser.currentTok
      match c.kind with
      | .Var => parseStep fuel .pVarDeclaration
      | _ => parseStep fuel .pStatement
    | .pStatement => do
      let c ← Parser.currentTok
      match c.kind with
      | .Print => parseStep fuel .pPrintStatement
      | .LeftBrace => parseStep fuel .pBlock
      | .If => parseStep fuel .pIf
      | .While => parseStep fuel .pWhile
      | .For => parseStep fuel .pForLoop
      | _ => parseStep fuel (.pExpression 0)
    | .pPrintStatement => do
      Parser.advance
      parseStep fuel (.pExpression 0)
      EM.swallow (Parser.expectAdvance .Semicolon "Expected ';' after value")
      Parser.emitOpCode .Print (← Parser.getLine)
    | .pExpressionStatement => do
      EM.swallow (parseStep fuel (.pExpression 0))
      EM.swallow (Parser.expectAdvance .Semicolon "Expected ';' after value")
      Parser.emitOpCode .Pop (← Parser.getLine)
    | .pVarDeclaration => do
      Parser.advance
      let name ← Parser.parseVarName
      let c ← Parser.currentTok
      match c.kind with
      | .Equal => do
        Parser.advance
        parseStep fuel (.pExpression 0)
      | _ => Parser.emitOpCode .Nil (← Parser.getLine)
      Parser.expectAdvance .Semicolon "Expected ';' after variable declaration"
      if (← EM.get).compiler.inLocalScope then Parser.declareLocalVar name
      else Parser.emitDefineGlobalVar name (← Parser.getLine)
    | .pBlock => do
      Parser.advance
      EM.modify fun st => { st with compiler := st.compiler.beginScope }
      parseStep fuel .pBlockLoop
      let st ← EM.get
      match st.compiler.endScope with
      | .error e => EM.throw e
      | .ok (localVarsToPop, compiler) => do
        EM.set { st with compiler := compiler }
        Parser.emitPops localVarsToPop
        EM.swallow (Parser.expectAdvance .RightBrace "Expect '\x7d' after block")
    | .pBlockLoop => do
      let c ← Parser.currentTok
      if !(c.isKind .RightBrace) && !(c.isKind .Eof) then do
        parseStep fuel .pDeclaration
        parseStep fuel .pBlockLoop
      else pure ()
    | .pIf => do
      Parser.advance
      Parser.expectAdvance .LeftParen "Expect '(' after if"
      EM.swallow (parseStep fuel (.pExpression 0))
      Parser.expectAdvance .RightParen "Expect ')' after if condition"
      let jumpToElse ← Parser.emitJump .JumpIfFalse
      parseStep fuel .pStatement
      let jumpToContinue ← Parser.emitJump .Jump
      EM.swallow (Parser.patchJump jumpToElse)
      let c ← Parser.currentTok
      if c.kind == .Else then do
        Parser.advance
        EM.swallow (parseStep fuel .pStatement)
      else pure ()
      EM.swallow (Parser.patchJump jumpToContinue)
    | .pWhile => do
      Parser.advance
      let loopStart ← Parser.markCode
      Parser.expectAdvance .LeftParen "Expect '(' after while"
      EM.swallow (parseStep fuel (.pExpression 0))
      Parser.expectAdvance .RightParen "Expect ')' after while condition"
      let jumpToExit ← Parser.emitJump .JumpIfFalse
      parseStep fuel .pStatement
      Parser.emitLoop loopStart
      EM.swallow (Parser.patchJump jumpToExit)
    | .pForLoop => do
      EM.modify fun st => { st with compiler := st.compiler.beginScope }
      Parser.advance
      Parser.expectAdvance .LeftParen "Expect '(' after for"
      let c ← Parser.currentTok
      match c.kind with
      | .Semicolon =>
        Parser.expectAdvance .Semicolon "Expect ';' after initializer in for loop"
      | .Var => parseStep fuel .pVarDeclaration
      | _ => parseStep fuel .pExpressionStatement
      let toCondition ← Parser.markCode
      let c ← Parser.currentTok
      match c.kind with
      | .Semicolon => pure ()
      | _ => parseStep fuel (.pExpression 0)
      Parser.expectAdvance .Semicolon "Expect ';' after condition in for loop"
      let toBlock ← Parser.emitJump .JumpIfTrue
      let toExit ← Parser.emitJump .Jump
      let toModify ← Parser.markCode
      let c ← Parser.currentTok
      match c.kind with
      | .RightParen => pure ()
      | _ => parseStep fuel (.pExpression 0)
      Parser.emitLoop toCondition
      Parser.expectAdvance .RightParen "Expect ')' after for"
      Parser.patchJump toBlock
      Parser.expect .LeftBrace "Expect '\x7b' in for loop"
      parseStep fuel .pStatement
      Parser.emitLoop toModify
      Parser.patchJump toExit
      let st ← EM.get
      match st.compiler.endScope with
      | .error e => EM.throw e
      | .ok (_, compiler) => EM.set { st with compiler := compiler }
    | .pProgramLoop => do
      match (← EM.get).current with
      | some _ => do
        parseStep fuel .pDeclaration
        parseStep fuel .pProgramLoop
      | none => pure ()

/-- `Parser::parse`: load the first token, parse declarations until the stream
is exhausted, check nothing is left, emit the trailing RETURN, and hand back
the chunk (the parser state itself is dropped, as in the source). -/
def Parser.parseTokens (fuel : Nat) (tokens : List Token) :
    Except Panicked (Except InterpretError Chunk) :=
  let run : PM Unit := do
    Parser.advance
    parseStep fuel .pProgramLoop
    Parser.expectDone
    Parser.emitReturn (← Parser.getLine)
  match run (PState.new tokens) with
  | .error p => .error p
  | .ok (.error e, _) => .ok (.error e)
  | .ok (.ok _, st) => .ok (.ok st.chunk)

/-- Default parsing fuel: ample for every program in the claims. -/
def parseFuel : Nat := 4000

/-- Compile a source string end to end (tokenize, then parse). -/
def compileSource (source : String) : Except Panicked (Except InterpretError Chunk) :=
  Parser.parseTokens parseFuel (tokenize source)

/-- The operand stack (`Stack` in `vm/stack.rs`): a `Vec<Value>` with index 0
at the bottom, pushed and popped at the back. -/
abbrev VStack : Type := List Value

/-- `Stack::push`. -/
def VStack.push (s : VStack) (value : Value) : VStack := List.append s [value]

/-- `Stack::pop`: remove and return the last value. -/
def VStack.pop (s : VStack) : Option (Value × VStack) :=
  match List.getLast? s with
  | none => none
  | some v => some (v, List.dropLast s)

/-- `Stack::peek` (`vm/stack.rs` lines 19-23): index `len - 1 - offset` from
the bottom. The `usize` computation underflows — a debug-build panic — whenever
`offset ≥ len`, so the `None` of the `Vec::get` is unreachable. -/
def VStack.peek (s : VStack) (offset : Nat) : Except Panicked (Option Value) :=
  if List.length s ≤ offset then .error ⟨"attempt to subtract with overflow"⟩
  else .ok (List.get? s (List.length s - 1 - offset))

/-- `Stack::get`: absolute slot read. -/
def VStack.get (s : VStack) (at_ : Nat) : Option Value := List.get? s at_

/-- `Stack::set`: absolute slot write (`Vec` indexing panics out of bounds). -/
def VStack.set (s : VStack) (at_ : Nat) (value : Value) : Except Panicked VStack :=
  if at_ < List.length s then .ok (List.set s at_ value)
  else .error ⟨"index out of bounds"⟩

/-- `Stack::is_empty`. -/
def VStack.isEmpty (s : VStack) : Bool := List.isEmpty s

/-- The global environment (`HashMap<String, Value>` in `vm.rs`), modelled as
an association list without duplicate keys (every write goes through
`Globals.insert`). -/
abbrev Globals : Type := List (String × Value)

/-- `HashMap::get`. -/
def Globals.getG (g : Globals) (name : String) : Option Value :=
  match g.find? (fun p => p.fst == name) with
  | some p => some p.snd
  | none => none

/-- `HashMap::insert`: overwrite the binding if present, else add it. -/
def Globals.insert (g : Globals) (name : String) (value : Value) : Globals :=
  if (g.find? (fun p => p.fst == name)).isSome then
    g.map (fun p => if p.fst == name then (name, value) else p)
  else List.append g [(name, value)]

/-- VM state (`Vm` in `vm.rs`): the chunk being read, the operand stack, the
heap contents (allocation order), the globals, and the instruction pointer. -/
structure VmState where
  chunk : Chunk
  stack : VStack
  heap : List Obj
  globals : Globals
  ip : Nat
deriving DecidableEq, Repr

/-- `Vm::new`. -/
def VmState.new (chunk : Chunk) : VmState := ⟨chunk, [], [], [], 0⟩

/-- VM computations (same two-layer outcome as the parser's). -/
def VM (α : Type) : Type := EM VmState α

instance : Monad VM := inferInstanceAs (Monad (EM VmState))

/-- `Vm::advance`: return the current `ip` and move it one byte forward. -/
def Vm.advanceIp : VM Nat := do
  let st ← EM.get
  EM.set { st with ip := st.ip + 1 }
  pure st.ip

/-- `Vm::read_byte`. -/
def Vm.readByte : VM (Option Nat) := do
  let ip ← Vm.advanceIp
  pure ((← EM.get).chunk.readByte ip)

/-- `Vm::read_jump`: advance past both operand bytes, then read them. -/
def Vm.readJump : VM (Option Jump) := do
  let at_ ← Vm.advanceIp
  let _ ← Vm.advanceIp
  pure ((← EM.get).chunk.readJump at_)

/-- `Vm::read_constant`. -/
def Vm.readConstant : VM Value := do
  let ip ← Vm.advanceIp
  EM.okOr ((← EM.get).chunk.readConstant ip) .RuntimeError

/-- `RcHeap::alloc`: record the object and hand back the reference (modelled by
the object's contents). -/
def Vm.alloc (obj : Obj) : VM Obj := do
  EM.modify fun st => { st with heap := st.heap ++ [obj] }
  pure obj

/-- `Vm::read_string`: look the literal up and allocate a fresh heap string. -/
def Vm.readString : VM Value := do
  let ip ← Vm.advanceIp
  let str ← EM.okOr ((← EM.get).chunk.readString ip) .RuntimeError
  let obj ← Vm.alloc (.string str)
  pure (.object obj)

/-- `Vm::read_global_name`. -/
def Vm.readGlobalName : VM String := do
  let ip ← Vm.advanceIp
  EM.okOr ((← EM.get).chunk.readString ip) .RuntimeError

/-- `Vm::push_stack`. -/
def Vm.pushStack (value : Value) : VM Unit :=
  EM.modify fun st => { st with stack := st.stack.push value }

/-- `Vm::pop_stack`. -/
def Vm.popStack : VM Value := do
  let st ← EM.get
  match st.stack.pop with
  | none => EM.throw .StackUnderflowError
  | some (v, stack) => do
    EM.set { st with stack := stack }
    pure v

/-- `Vm::peek_stack` (may panic inside `Stack::peek`). -/
def Vm.peekStack (offset : Nat) : VM (Option Value) := do
  EM.liftP ((← EM.get).stack.peek offset)

/-- `Vm::peek_stack_expected`: `peek_stack(..).ok_or(StackUnderflowError)`. -/
def Vm.peekStackExpected (offset : Nat) : VM Value := do
  EM.okOr (← Vm.peekStack offset) .StackUnderflowError

/-- The `binary_op_number!` macro of `Vm::run`: both operands must be numbers
(checked by peeking, with `&&` short-circuit), then pop right, pop left, push
the combined number. -/
def Vm.binaryOpNumber (op : F64 → F64 → F64) : VM Unit := do
  let p0 ← Vm.peekStack 0
  let isNumber ←
    if p0.any Value.isNumber then do
      let p1 ← Vm.peekStack 1
      pure (p1.any Value.isNumber)
    else pure false
  if !isNumber then EM.throw (.RuntimeErrorWithReason "Operands must be numbers")
  else do
    let rhs ← EM.liftP (← Vm.popStack).asNumberP
    let lhs ← EM.liftP (← Vm.popStack).asNumberP
    Vm.pushStack (.number (op lhs rhs))

/-- The `binary_op_bool!` macro of `Vm::run`. -/
def Vm.binaryOpBool (op : F64 → F64 → Bool) : VM Unit := do
  let p0 ← Vm.peekStack 0
  let isNumber ←
    if p0.any Value.isNumber then do
      let p1 ← Vm.peekStack 1
      pure (p1.any Value.isNumber)
    else pure false
  if !isNumber then EM.throw (.RuntimeErrorWithReason "Operands must be numbers")
  else do
    let rhs ← EM.liftP (← Vm.popStack).asNumberP
    let lhs ← EM.liftP (← Vm.popStack).asNumberP
    Vm.pushStack (.bool (op lhs rhs))

/-- `Vm::string_concatenate`: pop right then left, allocate the concatenation
(left followed by right) on the heap, push the new object. -/
def Vm.stringConcatenate : VM Unit := do
  let rhs ← Vm.popStack
  let lhs ← Vm.popStack
  let l ← EM.liftP lhs.asStringP
  let r ← EM.liftP rhs.asStringP
  let it ← Vm.alloc (.string (l ++ r))
  Vm.pushStack (.object it)

/-- `Vm::jump_forward`. -/
def Vm.jumpForward (jump : Jump) : VM Unit :=
  EM.modify fun st => { st with ip := st.ip + jump.distance }

/-- `Vm::jump_backward` (`usize` subtraction, underflow panics). -/
def Vm.jumpBackward (jump : Jump) : VM Unit := do
  let st ← EM.get
  if st.ip < jump.distance then EM.panicWith "attempt to subtract with overflow"
  else EM.set { st with ip := st.ip - jump.distance }

/-- `Vm::read_decode`: fetch the next byte and decode it as an opcode; both a
missing byte and an unknown byte are `RuntimeError`. -/
def Vm.readDecode : VM OpCode := do
  let byte ← EM.okOr (← Vm.readByte) .RuntimeError
  EM.okOr (OpCode.ofByte byte) .RuntimeError

/-- One arm of the `match` inside `Vm::run`'s loop: execute a decoded opcode;
`some v` is the `break Ok(it)` of the RETURN arm. The `println!` calls of the
source only write diagnostics and are not modelled. -/
def Vm.execOp (op : OpCode) : VM (Option Value) :=
  match op with
  | .Return => do
    let it ← Vm.popStack
    pure (some it)
  | .Not => do
    let it ← Vm.popStack
    Vm.pushStack (.bool (!it.isTruthy))
    pure none
  | .False => do
    Vm.pushStack (.bool false)
    pure none
  | .True => do
    Vm.pushStack (.bool true)
    pure none
  | .Nil => do
    Vm.pushStack .nil
    pure none
  | .String => do
    let x ← Vm.readString
    Vm.pushStack x
    pure none
  | .Equal => do
    let rhs ← Vm.popStack
    let lhs ← Vm.popStack
    Vm.pushStack (.bool (lhs.beqV rhs))
    pure none
  | .Greater => do
    Vm.binaryOpBool F64.bgt
    pure none
  | .Less => do
    Vm.binaryOpBool F64.blt
    pure none
  | .Add => do
    let p0 ← Vm.peekStack 0
    let isString ←
      if p0.any Value.isString then do
        let p1 ← Vm.peekStack 1
        pure (p1.any Value.isString)
      else pure false
    if isString then Vm.stringConcatenate
    else Vm.binaryOpNumber F64.add
    pure none
  | .Subtract => do
    Vm.binaryOpNumber F64.sub
    pure none
  | .Multiply => do
    Vm.binaryOpNumber F64.mul
    pure none
  | .Divide => do
    Vm.binaryOpNumber F64.div
    pure none
  | .Negate => do
    let p0 ← Vm.peekStack 0
    if !(p0.any Value.isNumber) then
      EM.throw (.RuntimeErrorWithReason "Negation works on numbers only")
    else do
      let x ← Vm.popStack
      let n ← EM.liftP x.asNumberP
      Vm.pushStack (.number n.neg)
      pure none
  | .Constant => do
    let x ← Vm.readConstant
    Vm.pushStack x
    pure none
  | .DefineGlobal => do
    let name ← Vm.readGlobalName
    let value ← Vm.popStack
    EM.modify fun st => { st with globals := st.globals.insert name value }
    pure none
  | .GetGlobal => do
    let name ← Vm.readGlobalName
    let value := ((← EM.get).globals.getG name).getD .nil
    Vm.pushStack value
    pure none
  | .SetGlobal => do
    let name ← Vm.readGlobalName
    let value ← Vm.peekStackExpected 0
    let st ← EM.get
    if (st.globals.getG name).isSome then do
      EM.set { st with globals := st.globals.insert name value }
      pure none
    else EM.throw (.RuntimeErrorWithReason "Global is not defined")
  | .GetLocal => do
    let at_ ← EM.okOr (← Vm.readByte) .RuntimeError
    let value ← EM.okOr ((← EM.get).stack.get at_)
      (.RuntimeErrorWithReason "Local variable value could not be found")
    Vm.pushStack value
    pure none
  | .SetLocal => do
    let at_ ← EM.okOr (← Vm.readByte) .RuntimeError
    let value ← Vm.peekStackExpected 0
    let st ← EM.get
    let stack ← EM.liftP (st.stack.set at_ value)
    EM.set { st with stack := stack }
    pure none
  | .Print => do
    let _ ← Vm.popStack
    pure none
  | .Pop => do
    let _ ← Vm.popStack
    pure none
  | .JumpIfFalse => do
    let distance ← EM.okOr (← Vm.readJump) .RuntimeError
    let v ← Vm.peekStackExpected 0
    if !v.isTruthy then Vm.jumpForward distance else pure ()
    pure none
  | .JumpIfTrue => do
    let distance ← EM.okOr (← Vm.readJump) .RuntimeError
    let v ← Vm.peekStackExpected 0
    if v.isTruthy then Vm.jumpForward distance else pure ()
    pure none
  | .Jump => do
    let distance ← EM.okOr (← Vm.readJump) .RuntimeError
    Vm.jumpForward distance
    pure none
  | .Loop => do
    let distance ← EM.okOr (← Vm.readJump) .RuntimeError
    Vm.jumpBackward distance
    pure none

/-- The fetch-decode-execute loop of `Vm::run`, bounded by fuel. -/
def Vm.runLoop : Nat → VM Value
  | 0 => EM.panicWith "out of fuel"
  | fuel + 1 => do
    let op ← Vm.readDecode
    match ← Vm.execOp op with
    | some it => pure it
    | none => Vm.runLoop fuel

/-- Default VM fuel: ample for every program in the claims. -/
def vmFuel : Nat := 4000

/-- Run a chunk from a fresh VM; the final state (stack, globals, heap, ip) is
returned next to the outcome, as `interpret` keeps using the `Vm` after
`run`. -/
def runChunk (chunk : Chunk) : Except Panicked (Except InterpretError Value × VmState) :=
  Vm.runLoop vmFuel (VmState.new chunk)

/-- Compile and run a source string; `.ok (.ok (v, stack))` gives the value the
RETURN arm popped and the operand stack as RETURN left it. -/
def interpretSource (source : String) :
    Except Panicked (Except InterpretError (Value × VStack)) :=
  match compileSource source with
  | .error p => .error p
  | .ok (.error e) => .ok (.error e)
  | .ok (.ok chunk) =>
    match runChunk chunk with
    | .error p => .error p
    | .ok (.error e, _) => .ok (.error e)
    | .ok (.ok v, st) => .ok (.ok (v, st.stack))

/-- Popping reaches the value most recently pushed. -/
lemma VStack.pop_concat (l : VStack) (v : Value) : VStack.pop (l ++ [v]) = some (v, l) := by
  simp [VStack.pop, List.getLast?_concat, List.dropLast_concat]

/-- Peeking at offset 0 sees the top of the stack. -/
lemma VStack.peek_zero_concat (l : VStack) (v : Value) :
    VStack.peek (l ++ [v]) 0 = .ok (some v) := by
  simp [VStack.peek]

/-- Peeking at offset 1 sees the value below the top. -/
lemma VStack.peek_one_concat (l : VStack) (x y : Value) :
    VStack.peek (l ++ [x, y]) 1 = .ok (some x) := by
  simp [VStack.peek, List.getElem_append_right]

/-- Two pushed values, re-associated for the pop lemmas. -/
lemma VStack.concat_two (l : VStack) (x y : Value) :
    l ++ [x, y] = (l ++ [x]) ++ [y] := by simp

/-- Peeking past the stack underflows the index computation and panics. -/
lemma VStack.peek_panics (s : VStack) (offset : Nat) (h : List.length s ≤ offset) :
    VStack.peek s offset = .error ⟨"attempt to subtract with overflow"⟩ := by
  simp [VStack.peek, h]

/-- Peeking inside the stack always finds a value. -/
lemma VStack.peek_some (s : VStack) (offset : Nat) (h : offset < List.length s) :
    ∃ v, VStack.peek s offset = .ok (some v) := by
  refine ⟨List.get s ⟨List.length s - 1 - offset, by omega⟩, ?_⟩
  simp [VStack.peek, Nat.not_le.mpr h,
    List.get?_eq_get (by omega : List.length s - 1 - offset < List.length s)]

/-- `Stack::peek` can never return an `Ok(None)`: out of range it panics
first. -/
lemma VStack.peek_ne_ok_none (s : VStack) (offset : Nat) :
    VStack.peek s offset ≠ .ok none := by
  intro hr
  rcases le_or_lt (List.length s) offset with hle | hlt
  · rw [VStack.peek_panics s offset hle] at hr; exact absurd hr (by simp)
  · obtain ⟨v, hv⟩ := VStack.peek_some s offset hlt
    rw [hv] at hr
    exact absurd hr (by simp)

/-- C10: `Stack::peek` is not total: for every offset at or past the stack
length the index computation `len - 1 - offset` underflows (a debug-build
panic) instead of producing `None`; consequently `peek` never returns
`Ok(None)` on any input, and the `ok_or(StackUnderflowError)` guarding peeks in
the VM (`Vm::peek_stack_expected`, used by JUMP_IF_FALSE, JUMP_IF_TRUE,
SET_GLOBAL, SET_LOCAL) can never produce its `StackUnderflowError`. -/
theorem C10_peek_partiality :
    ∀ (s : VStack) (offset : Nat),
      (List.length s ≤ offset →
        VStack.peek s offset = .error ⟨"attempt to subtract with overflow"⟩) ∧
      (offset < List.length s → ∃ v, VStack.peek s offset = .ok (some v)) ∧
      (∀ r, VStack.peek s offset = .ok r → r ≠ none) ∧
      (∀ (st st' : VmState) (e : InterpretError),
        Vm.peekStackExpected offset st = .ok (.error e, st') → e ≠ .StackUnderflowError) := by
  intro s offset
  refine ⟨VStack.peek_panics s offset, VStack.peek_some s offset, ?_, ?_⟩
  · intro r hr hnone
    subst hnone
    exact VStack.peek_ne_ok_none s offset hr
  · intro st st' e hq he
    subst he
    rcases hpk : VStack.peek st.stack offset with p | o
    · have : Vm.peekStackExpected offset st = .error p := by
        simp [Vm.peekStackExpected, Vm.peekStack, EM.get, EM.liftP, EM.okOr, bind, pure, hpk]
      rw [this] at hq
      exact absurd hq (by simp)
    · rcases o with _ | v
      · exact VStack.peek_ne_ok_none st.stack offset hpk
      · have : Vm.peekStackExpected offset st = .ok (.ok v, st) := by
          simp [Vm.peekStackExpected, Vm.peekStack, EM.get, EM.liftP, EM.okOr, bind, pure, hpk]
        rw [this] at hq
        simp at hq

/-- C10 witness: the empty stack panics at offset 0; a one-value stack yields a
value. -/
theorem C10_peek_partiality_witness :
    VStack.peek ([] : VStack) 0 = .error ⟨"attempt to subtract with overflow"⟩ ∧
    (∃ v, VStack.peek ([Value.nil] : VStack) 0 = .ok (some v)) :=
  ⟨(C10_peek_partiality [] 0).1 (by decide), (C10_peek_partiality [Value.nil] 0).2.1 (by decide)⟩

/-- C3 counterexample: the claim says an Object is truthy, but
`Value::is_truthy` maps every Object to false. -/
theorem C3_object_truthiness_counterexample :
    ¬ ((Value.object (Obj.string "a")).isTruthy = true) := by decide

/-- C3 (amended): the truthiness used by NOT (and the conditional jumps) is:
Nil is false; a Bool is its own value; a Number is true iff non-zero; an
Object is FALSE (not true as the spec claims); and the NOT arm of the VM
pushes the negated truthiness of the popped value. -/
theorem C3_truthiness_amended :
    Value.isTruthy .nil = false ∧
    (∀ b : Bool, (Value.bool b).isTruthy = b) ∧
    (∀ q : F64, (Value.number q).isTruthy = !(q.beq (F64.ofNat 0))) ∧
    (∀ o : Obj, (Value.object o).isTruthy = false) ∧
    (∀ (st : VmState) (rest : VStack) (v : Value), st.stack = rest ++ [v] →
      Vm.execOp .Not st = .ok (.ok none, { st with stack := rest ++ [.bool (!v.isTruthy)] })) := by
  refine ⟨rfl, fun b => rfl, fun q => rfl, fun o => rfl, fun st rest v h => ?_⟩
  simp [Vm.execOp, Vm.popStack, Vm.pushStack, EM.get, EM.set, EM.modify, EM.throw,
    bind, pure, h, VStack.pop_concat, VStack.push]

/-- C3 witness: executing NOT on a stack holding Nil pushes true. -/
theorem C3_truthiness_amended_witness :
    Vm.execOp .Not ⟨Chunk.new, [.nil], [], [], 0⟩ =
      .ok (.ok none, ⟨Chunk.new, [.bool true], [], [], 0⟩) := by
  have h := C3_truthiness_amended.2.2.2.2 ⟨Chunk.new, [.nil], [], [], 0⟩ [] .nil rfl
  simpa using h

/-- Patching a jump at `at_` stores, big-endian, exactly the forward distance
`code.len - at_ - 2`, readable back via `read_jump`; success implies the
distance fits 16 bits. -/
lemma Chunk.patchJump_roundtrip :
    ∀ (c : Chunk) (at_ : Nat) (c' : Chunk), Chunk.patchJump c at_ = .ok (.ok c') →
      c'.readJump at_ = some ⟨c.code.len - at_ - 2⟩ ∧ c.code.len - at_ - 2 ≤ 65535 := by
  intro c at_ c' h
  by_cases h1 : c.code.len < at_ + 2
  · simp [Chunk.patchJump, Jump.forward, h1, Bind.bind, Pure.pure, Functor.map,
      Except.bind, Except.pure, Except.map] at h
  by_cases h2 : c.code.len - at_ - 2 > 65535
  · simp [Chunk.patchJump, Jump.forward, h1, h2, Bind.bind, Pure.pure, Functor.map,
      Except.bind, Except.pure, Except.map] at h
  have hlt : at_ < List.length c.code := by simp [Codes.len] at h1 ⊢; omega
  have hlt2 : at_ + 1 < List.length c.code := by simp [Codes.len] at h1 ⊢; omega
  simp [Codes.len] at h1 h2
  simp [Chunk.patchJump, Jump.forward, h1, h2, Bind.bind, Pure.pure, Functor.map,
    Except.bind, Except.pure, Except.map, Codes.patch, Codes.len, Jump.toBytes, hlt, hlt2,
    show ¬(List.length c.code < at_ + 2) by omega,
    show ¬(65535 < List.length c.code - at_ - 2) by omega] at h
  subst h
  refine ⟨?_, by simp [Codes.len]; omega⟩
  simp [Chunk.readJump, Chunk.readByte, Codes.get, Codes.len, bind, Option.bind]
  simp [List.getElem?_set_self', List.getElem?_set_ne, List.getElem?_eq_getElem, hlt, hlt2,
    Jump.fromBytes]
  omega

/-- Emitting a LOOP back to `to_` stores the distance `code.len + 3 - to_`,
the amount the VM subtracts after `ip` passed the 3-byte instruction. -/
lemma Chunk.writeLoop_roundtrip :
    ∀ (c : Chunk) (to_ line : Nat) (c' : Chunk), Chunk.writeLoop c to_ line = .ok (.ok c') →
      c'.readJump (c.code.len + 1) = some ⟨c.code.len + 3 - to_⟩ ∧
      c.code.len + 3 - (c.code.len + 3 - to_) = to_ := by
  intro c to_ line c' h
  by_cases h1 : c.code.len + 2 + 1 < to_
  · simp [Chunk.writeLoop, Jump.backward, h1, Bind.bind, Pure.pure, Functor.map,
      Except.bind, Except.pure, Except.map] at h
  by_cases h2 : c.code.len + 2 + 1 - to_ > 65535
  · simp [Chunk.writeLoop, Jump.backward, h1, h2, Bind.bind, Pure.pure, Functor.map,
      Except.bind, Except.pure, Except.map] at h
  simp [Codes.len] at h1 h2
  simp [Chunk.writeLoop, Jump.backward, Bind.bind, Pure.pure, Functor.map,
    Except.bind, Except.pure, Except.map, Chunk.writeByte, Codes.add, Codes.len, Jump.toBytes,
    show ¬(List.length c.code + 2 + 1 < to_) by omega,
    show ¬(65535 < List.length c.code + 2 + 1 - to_) by omega] at h
  subst h
  refine ⟨?_, by simp [Codes.len]; omega⟩
  simp [Chunk.readJump, Chunk.readByte, Codes.get, Codes.len, bind, Option.bind,
    List.append_assoc]
  rw [List.getElem_append_right (by omega), List.getElem_append_right (by omega)]
  simp [Jump.fromBytes,
    show List.length c.code + 1 - List.length c.code = 1 by omega,
    show List.length c.code + 1 + 1 - List.length c.code = 2 by omega]
  omega

/-- C4: forward jumps store the 16-bit big-endian distance `to - from - 2`
(where `from` is the first placeholder byte and `to` the code length at patch
time); LOOP stores `from + 2 + 1 - to`, exactly what the VM subtracts after
advancing past the 3-byte instruction (so it lands on `to`); distances beyond
16 bits fail with JumpTooFar; and the two operand bytes round-trip through the
big-endian encoding. -/
theorem C4_jump_encoding :
    ∀ (from_ to_ d : Nat),
      (from_ + 2 ≤ to_ → to_ - from_ - 2 ≤ 65535 →
        Jump.forward from_ to_ = .ok (.ok ⟨to_ - from_ - 2⟩)) ∧
      (from_ + 2 ≤ to_ → 65535 < to_ - from_ - 2 →
        Jump.forward from_ to_ = .ok (.error .JumpTooFar)) ∧
      (to_ ≤ from_ + 3 → from_ + 2 + 1 - to_ ≤ 65535 →
        Jump.backward from_ to_ = .ok (.ok ⟨from_ + 2 + 1 - to_⟩) ∧
        from_ + 3 - (from_ + 2 + 1 - to_) = to_) ∧
      (65535 < from_ + 2 + 1 - to_ → Jump.backward from_ to_ = .ok (.error .JumpTooFar)) ∧
      (d ≤ 65535 →
        Jump.fromBytes (Jump.mk d).toBytes.1 (Jump.mk d).toBytes.2 = ⟨d⟩ ∧
        (Jump.mk d).toBytes.1 ≤ 255 ∧ (Jump.mk d).toBytes.2 ≤ 255) ∧
      (∀ (c : Chunk) (op : OpCode) (line : Nat), (c.writeJump op line).2 = c.code.len + 1) ∧
      (∀ (c : Chunk) (at_ : Nat) (c' : Chunk), Chunk.patchJump c at_ = .ok (.ok c') →
        c'.readJump at_ = some ⟨c.code.len - at_ - 2⟩ ∧ c.code.len - at_ - 2 ≤ 65535) ∧
      (∀ (c : Chunk) (to2 line : Nat) (c' : Chunk), Chunk.writeLoop c to2 line = .ok (.ok c') →
        c'.readJump (c.code.len + 1) = some ⟨c.code.len + 3 - to2⟩ ∧
        c.code.len + 3 - (c.code.len + 3 - to2) = to2) := by
  intro from_ to_ d
  refine ⟨?_, ?_, ?_, ?_, ?_, ?_, Chunk.patchJump_roundtrip, Chunk.writeLoop_roundtrip⟩
  · intro h1 h2
    simp [Jump.forward, show ¬(to_ < from_ + 2) by omega, show ¬(to_ - from_ - 2 > 65535) by omega]
  · intro h1 h2
    simp [Jump.forward, show ¬(to_ < from_ + 2) by omega, show to_ - from_ - 2 > 65535 by omega]
  · intro h1 h2
    refine ⟨?_, by omega⟩
    simp [Jump.backward, show ¬(from_ + 2 + 1 < to_) by omega,
      show ¬(from_ + 2 + 1 - to_ > 65535) by omega]
  · intro h1
    simp [Jump.backward, show ¬(from_ + 2 + 1 < to_) by omega,
      show from_ + 2 + 1 - to_ > 65535 by omega]
  · intro h1
    refine ⟨?_, by simp [Jump.toBytes]; omega, by simp [Jump.toBytes]; omega⟩
    simp [Jump.toBytes, Jump.fromBytes]
    omega
  · intro c op line
    simp [Chunk.writeJump, Chunk.writeByte, Codes.add, Codes.len, Jump.toBytes]

set_option maxRecDepth 8000 in
/-- C4 witness: concrete instances of every conjunct — a patched forward jump
of distance 2, an overflowing forward jump, a loop landing back on its target,
the byte round-trip of 300, and a concrete patch and loop emission. -/
theorem C4_jump_encoding_witness :
    Jump.forward 1 5 = .ok (.ok ⟨2⟩) ∧
    Jump.forward 0 70000 = .ok (.error .JumpTooFar) ∧
    (Jump.backward 4 2 = .ok (.ok ⟨5⟩) ∧ 4 + 3 - (4 + 2 + 1 - 2) = 2) ∧
    Jump.fromBytes (Jump.mk 300).toBytes.1 (Jump.mk 300).toBytes.2 = ⟨300⟩ ∧
    (Chunk.mk [21, 0, 1, 9] [] [] [0, 0, 0, 0]).readJump 1 = some ⟨1⟩ ∧
    (Chunk.mk [24, 0, 3] [] [] [0, 0, 0]).readJump 1 = some ⟨3⟩ := by
  have h := C4_jump_encoding 1 5 300
  have h2 := C4_jump_encoding 0 70000 300
  have h3 := C4_jump_encoding 4 2 300
  refine ⟨h.1 (by decide) (by decide), h2.2.1 (by omega) (by omega), ?_, ?_, ?_, ?_⟩
  · exact ⟨(h3.2.2.1 (by decide) (by decide)).1, by decide⟩
  · exact (h.2.2.2.2.1 (by decide)).1
  · simpa [Codes.len] using ((C4_jump_encoding 0 0 0).2.2.2.2.2.2.1
      (Chunk.mk [21, 0, 0, 9] [] [] [0, 0, 0, 0]) 1
      (Chunk.mk [21, 0, 1, 9] [] [] [0, 0, 0, 0]) (by decide)).1
  · simpa [Codes.len] using ((C4_jump_encoding 0 0 0).2.2.2.2.2.2.2
      (Chunk.mk [] [] [] []) 0 0 (Chunk.mk [24, 0, 3] [] [] [0, 0, 0]) (by decide)).1

/-- Peeking at offset 0 above two pushed values sees the right operand. -/
lemma VStack.peek_zero_two (l : VStack) (x y : Value) :
    VStack.peek (l ++ [x, y]) 0 = .ok (some y) := by
  simp [VStack.peek, List.getElem_append_right]

/-- Popping above two pushed values removes the right operand first. -/
lemma VStack.pop_two (l : VStack) (x y : Value) :
    VStack.pop (l ++ [x, y]) = some (y, l ++ [x]) := by
  rw [VStack.concat_two]
  simpa using VStack.pop_concat (l ++ [x]) y

set_option maxHeartbeats 2000000 in
/-- C5: executing ADD pushes the numeric sum when both operands are Numbers,
pushes a newly heap-allocated String equal to the left operand followed by the
right when both are Strings, and fails with the runtime error "Operands must
be numbers" (leaving the stack as it was) for every other combination — in
particular for the String/Number pair of `"a" + 1`. -/
theorem C5_add_semantics :
    ∀ (st : VmState) (rest : VStack),
      (∀ a b : F64, st.stack = rest ++ [.number a, .number b] →
        Vm.execOp .Add st = .ok (.ok none, { st with stack := rest ++ [.number (a.add b)] })) ∧
      (∀ x y : String, st.stack = rest ++ [.object (.string x), .object (.string y)] →
        Vm.execOp .Add st =
          .ok (.ok none, { st with stack := rest ++ [.object (.string (x ++ y))],
                                   heap := st.heap ++ [.string (x ++ y)] })) ∧
      (∀ l r : Value, st.stack = rest ++ [l, r] →
        ¬(l.isNumber = true ∧ r.isNumber = true) →
        ¬(l.isString = true ∧ r.isString = true) →
        Vm.execOp .Add st =
          .ok (.error (.RuntimeErrorWithReason "Operands must be numbers"), st)) ∧
      interpretSource "return \"a\" + 1;" =
        .ok (.error (.RuntimeErrorWithReason "Operands must be numbers")) := by
  intro st rest
  refine ⟨?_, ?_, ?_, by decide⟩
  · intro a b h
    simp [Vm.execOp, Vm.binaryOpNumber, Vm.peekStack, Vm.popStack, Vm.pushStack,
      Vm.stringConcatenate, EM.get, EM.set, EM.modify, EM.throw, EM.liftP, bind, pure,
      h, VStack.peek_zero_two, VStack.peek_one_concat, VStack.pop_two, VStack.pop_concat,
      VStack.push, Value.isNumber, Value.isString, Value.asNumberP]
  · intro x y h
    simp [Vm.execOp, Vm.binaryOpNumber, Vm.peekStack, Vm.popStack, Vm.pushStack,
      Vm.stringConcatenate, Vm.alloc, EM.get, EM.set, EM.modify, EM.throw, EM.liftP, bind, pure,
      h, VStack.peek_zero_two, VStack.peek_one_concat, VStack.pop_two, VStack.pop_concat,
      VStack.push, Value.isNumber, Value.isString, Value.asStringP, Obj.isString]
  · intro l r h hn hs
    rcases hrs : r.isString with _ | _
    · rcases hrn : r.isNumber with _ | _
      · simp [Vm.execOp, Vm.binaryOpNumber, Vm.peekStack, Vm.popStack, Vm.pushStack,
          Vm.stringConcatenate, EM.get, EM.set, EM.modify, EM.throw, EM.liftP, bind, pure,
          h, VStack.peek_zero_two, VStack.peek_one_concat, hrs, hrn]
      · simp [Vm.execOp, Vm.binaryOpNumber, Vm.peekStack, Vm.popStack, Vm.pushStack,
          Vm.stringConcatenate, EM.get, EM.set, EM.modify, EM.throw, EM.liftP, bind, pure,
          h, VStack.peek_zero_two, VStack.peek_one_concat, hrs, hrn,
          show l.isNumber = false from by
            rcases hln : l.isNumber with _ | _
            · rfl
            · exact absurd ⟨hln, hrn⟩ hn]
    · rcases hls : l.isString with _ | _
      · have hrn : r.isNumber = false := by
          rcases r with q | bb | o | _ <;> simp_all [Value.isString, Value.isNumber]
        simp [Vm.execOp, Vm.binaryOpNumber, Vm.peekStack, Vm.popStack, Vm.pushStack,
          Vm.stringConcatenate, EM.get, EM.set, EM.modify, EM.throw, EM.liftP, bind, pure,
          h, VStack.peek_zero_two, VStack.peek_one_concat, hrs, hls, hrn]
      · exact absurd ⟨hls, hrs⟩ hs

/-- C5 witness: 2 + 3 pushes 5; "a" + 1 errors and leaves the stack intact. -/
theorem C5_add_semantics_witness :
    Vm.execOp .Add ⟨Chunk.new, [.number ⟨2, 1⟩, .number ⟨3, 1⟩], [], [], 0⟩ =
      .ok (.ok none, ⟨Chunk.new, [.number ⟨5, 1⟩], [], [], 0⟩) ∧
    Vm.execOp .Add ⟨Chunk.new, [.object (.string "a"), .number ⟨1, 1⟩], [], [], 0⟩ =
      .ok (.error (.RuntimeErrorWithReason "Operands must be numbers"),
        ⟨Chunk.new, [.object (.string "a"), .number ⟨1, 1⟩], [], [], 0⟩) := by
  constructor
  · have h := (C5_add_semantics ⟨Chunk.new, [.number ⟨2, 1⟩, .number ⟨3, 1⟩], [], [], 0⟩ []).1
      ⟨2, 1⟩ ⟨3, 1⟩ rfl
    simpa [F64.add] using h
  · have h := (C5_add_semantics
        ⟨Chunk.new, [.object (.string "a"), .number ⟨1, 1⟩], [], [], 0⟩ []).2.2.1
      (.object (.string "a")) (.number ⟨1, 1⟩) rfl (by decide) (by decide)
    simpa using h

/-- Looking up a name right after `HashMap::insert` yields the inserted value,
whether or not the name was bound before. -/
lemma Globals.getG_insert (g : Globals) (n : String) (v : Value) :
    (g.insert n v).getG n = some v := by
  induction g with
  | nil => simp [Globals.insert, Globals.getG]
  | cons p g ih =>
    by_cases hp : p.1 = n
    · simp [Globals.insert, Globals.getG, List.find?, hp, beq_iff_eq]
    · have hpf : (p.1 == n) = false := by simp [hp]
      simp only [Globals.insert, Globals.getG, List.map_cons, List.cons_append,
        List.find?_cons, hpf] at ih ⊢
      rcases hfind : List.find? (fun q : String × Value => q.1 == n) g with _ | q
      · simp only [hfind] at ih ⊢
        simp only [Option.isSome_none, Bool.false_eq_true, if_false] at ih ⊢
        simpa [List.find?_cons, hpf] using ih
      · simp only [hfind] at ih ⊢
        simp only [Option.isSome_some, if_true] at ih ⊢
        simpa [List.find?_cons, hpf] using ih

/-- C6: for every global name `n`: DEFINE_GLOBAL pops the value and binds `n`
to it, overwriting any existing binding; GET_GLOBAL of an undefined name
pushes Nil and never fails; SET_GLOBAL of an undefined name fails with the
runtime error "Global is not defined" and leaves the globals map (and stack)
unchanged. -/
theorem C6_globals_semantics :
    ∀ (n : String) (g : Globals) (rest : VStack) (v : Value) (heap : List Obj),
      (Vm.execOp .DefineGlobal
          ⟨⟨[OpCode.DefineGlobal.toByte, 0], [], [n], [0, 0]⟩, rest ++ [v], heap, g, 1⟩ =
        .ok (.ok none,
          ⟨⟨[OpCode.DefineGlobal.toByte, 0], [], [n], [0, 0]⟩, rest, heap, g.insert n v, 2⟩)) ∧
      ((g.insert n v).getG n = some v) ∧
      (g.getG n = none →
        Vm.execOp .GetGlobal ⟨⟨[OpCode.GetGlobal.toByte, 0], [], [n], [0, 0]⟩, rest, heap, g, 1⟩ =
          .ok (.ok none,
            ⟨⟨[OpCode.GetGlobal.toByte, 0], [], [n], [0, 0]⟩, rest ++ [.nil], heap, g, 2⟩)) ∧
      (g.getG n = none →
        Vm.execOp .SetGlobal
            ⟨⟨[OpCode.SetGlobal.toByte, 0], [], [n], [0, 0]⟩, rest ++ [v], heap, g, 1⟩ =
          .ok (.error (.RuntimeErrorWithReason "Global is not defined"),
            ⟨⟨[OpCode.SetGlobal.toByte, 0], [], [n], [0, 0]⟩, rest ++ [v], heap, g, 2⟩)) := by
  intro n g rest v heap
  refine ⟨?_, Globals.getG_insert g n v, ?_, ?_⟩
  · simp [Vm.execOp, Vm.readGlobalName, Vm.advanceIp, Vm.popStack, Vm.pushStack,
      EM.get, EM.set, EM.modify, EM.throw, EM.liftP, EM.okOr, bind, pure,
      Chunk.readString, Chunk.readByte, Codes.get, Strings.get, VStack.pop_concat]
  · intro h
    simp [Vm.execOp, Vm.readGlobalName, Vm.advanceIp, Vm.pushStack,
      EM.get, EM.set, EM.modify, EM.throw, EM.liftP, EM.okOr, bind, pure,
      Chunk.readString, Chunk.readByte, Codes.get, Strings.get, h, VStack.push]
  · intro h
    simp [Vm.execOp, Vm.readGlobalName, Vm.advanceIp, Vm.peekStackExpected, Vm.peekStack,
      EM.get, EM.set, EM.modify, EM.throw, EM.liftP, EM.okOr, bind, pure,
      Chunk.readString, Chunk.readByte, Codes.get, Strings.get, h, VStack.peek_zero_concat]

/-- C6 witness: concrete define (overwriting an old binding), undefined get
pushing Nil, and undefined set failing without touching the globals. -/
theorem C6_globals_semantics_witness :
    Vm.execOp .DefineGlobal
        ⟨⟨[OpCode.DefineGlobal.toByte, 0], [], ["x"], [0, 0]⟩, [.number ⟨7, 1⟩], [],
          [("x", .nil)], 1⟩ =
      .ok (.ok none,
        ⟨⟨[OpCode.DefineGlobal.toByte, 0], [], ["x"], [0, 0]⟩, [], [],
          [("x", .number ⟨7, 1⟩)], 2⟩) ∧
    Vm.execOp .GetGlobal ⟨⟨[OpCode.GetGlobal.toByte, 0], [], ["y"], [0, 0]⟩, [], [], [], 1⟩ =
      .ok (.ok none, ⟨⟨[OpCode.GetGlobal.toByte, 0], [], ["y"], [0, 0]⟩, [.nil], [], [], 2⟩) ∧
    Vm.execOp .SetGlobal
        ⟨⟨[OpCode.SetGlobal.toByte, 0], [], ["y"], [0, 0]⟩, [.nil], [], [], 1⟩ =
      .ok (.error (.RuntimeErrorWithReason "Global is not defined"),
        ⟨⟨[OpCode.SetGlobal.toByte, 0], [], ["y"], [0, 0]⟩, [.nil], [], [], 2⟩) := by
  refine ⟨?_, ?_, ?_⟩
  · have h := (C6_globals_semantics "x" [("x", .nil)] [] (.number ⟨7, 1⟩) []).1
    simpa [Globals.insert] using h
  · have h := (C6_globals_semantics "y" [] [] .nil []).2.2.1 (by decide)
    simpa using h
  · have h := (C6_globals_semantics "y" [] [] .nil []).2.2.2 (by decide)
    simpa using h

set_option maxRecDepth 4000 in
/-- C7 counterexample: when the compiler emits the 257th constant (pool index
256), `Parser::emit_constant` does not return a compilation error to the
caller — the `expect` inside `Chunk::write_constant` panics (aborts). -/
theorem C7_constant_overflow_counterexample :
    Parser.emitConstant (.number ⟨1, 1⟩) 0
        ⟨[], none, 0, Compiler.new, Chunk.mk [] (List.replicate 256 .nil) [] []⟩ =
      .error ⟨"Constant added at index out of range for byte"⟩ ∧
    ∀ (e : InterpretError) (st : PState),
      Parser.emitConstant (.number ⟨1, 1⟩) 0
          ⟨[], none, 0, Compiler.new, Chunk.mk [] (List.replicate 256 .nil) [] []⟩ ≠
        .ok (.error e, st) := by
  have h1 : Parser.emitConstant (.number ⟨1, 1⟩) 0
      ⟨[], none, 0, Compiler.new, Chunk.mk [] (List.replicate 256 .nil) [] []⟩ =
      .error ⟨"Constant added at index out of range for byte"⟩ := by
    simp [Parser.emitConstant, Chunk.writeConstant, Chunk.addConstant, Constants.add,
      EM.get, EM.set, EM.liftP, bind, pure, List.length_replicate]
  exact ⟨h1, fun e st h => Except.noConfusion (h1 ▸ h)⟩

/-- C7 (amended): adding a 257th constant or a 257th string to the Chunk (pool
index 256, no longer a byte) makes the compiler PANIC — `expect` on
`Byte::try_from` aborts the process — rather than returning a compilation
error to the caller; the panic propagates through the parser's emit helpers. -/
theorem C7_pool_overflow_amended :
    (∀ (c : Chunk) (v : Value) (line : Nat), 256 ≤ List.length c.constants →
      c.writeConstant v line = .error ⟨"Constant added at index out of range for byte"⟩) ∧
    (∀ (c : Chunk) (s : String) (line : Nat), 256 ≤ List.length c.strings →
      c.writeString s line = .error ⟨"String added at index out of range for byte"⟩) ∧
    (∀ (st : PState) (v : Value) (line : Nat), 256 ≤ List.length st.chunk.constants →
      Parser.emitConstant v line st =
        .error ⟨"Constant added at index out of range for byte"⟩) ∧
    (∀ (st : PState) (s : String) (line : Nat), 256 ≤ List.length st.chunk.strings →
      Parser.emitString s line st =
        .error ⟨"String added at index out of range for byte"⟩) := by
  have hc : ∀ (c : Chunk) (v : Value) (line : Nat), 256 ≤ List.length c.constants →
      c.writeConstant v line = .error ⟨"Constant added at index out of range for byte"⟩ := by
    intro c v line h
    simp [Chunk.writeConstant, Chunk.addConstant, Constants.add,
      show List.length c.constants > 255 from by omega]
  have hs : ∀ (c : Chunk) (s : String) (line : Nat), 256 ≤ List.length c.strings →
      c.writeString s line = .error ⟨"String added at index out of range for byte"⟩ := by
    intro c s line h
    simp [Chunk.writeString, Strings.add,
      show List.length c.strings > 255 from by omega]
  refine ⟨hc, hs, ?_, ?_⟩
  · intro st v line h
    simp [Parser.emitConstant, EM.get, EM.set, EM.liftP, bind, pure, hc st.chunk v line h]
  · intro st s line h
    simp [Parser.emitString, EM.get, EM.set, EM.liftP, bind, pure, hs st.chunk s line h]

/-- C7 witness: a chunk holding 256 constants (resp. strings) panics on the
next write, also through the parser's emit helper. -/
theorem C7_pool_overflow_amended_witness :
    (Chunk.mk [] (List.replicate 256 .nil) [] []).writeConstant .nil 0 =
      .error ⟨"Constant added at index out of range for byte"⟩ ∧
    (Chunk.mk [] [] (List.replicate 256 "s") []).writeString "t" 0 =
      .error ⟨"String added at index out of range for byte"⟩ ∧
    Parser.emitString "t" 0
        ⟨[], none, 0, Compiler.new, Chunk.mk [] [] (List.replicate 256 "s") []⟩ =
      .error ⟨"String added at index out of range for byte"⟩ :=
  ⟨C7_pool_overflow_amended.1 _ .nil 0 (by rw [List.length_replicate]),
   C7_pool_overflow_amended.2.1 _ "t" 0 (by rw [List.length_replicate]),
   C7_pool_overflow_amended.2.2.2 _ "t" 0 (by rw [List.length_replicate])⟩

/-- `Tokenizer::take_comment` never touches the line counter, even though it
consumes the terminating newline byte. -/
lemma Tok.takeComment_line (fuel : Nat) (t : Tok) :
    (Tok.takeComment fuel t).line = t.line := by
  induction fuel generalizing t with
  | zero => rfl
  | succ n ih =>
    by_cases hc : t.current + 1 > t.src.length
    · simp [Tok.takeComment, Tok.takeByte, Tok.advanceByte, hc]
    · rcases hg : t.src[t.current]? with _ | ch
      · simp [Tok.takeComment, Tok.takeByte, Tok.advanceByte, hc, hg]
      · by_cases hn : ch = '\n'
        · simp [Tok.takeComment, Tok.takeByte, Tok.advanceByte, hc, hg, hn]
        · simp [Tok.takeComment, Tok.takeByte, Tok.advanceByte, hc, hg, hn, ih]

/-- C8 counterexample: the token after a line comment does NOT carry an
incremented line — `"//c\n!"` yields the Bang token with line 0, where the
claim requires line 1 (the newline was consumed inside the comment). -/
theorem C8_comment_newline_counterexample :
    tokenize "//c\n!" = [⟨.Bang, "!", 4, 0⟩] ∧
    (tokenize "//c\n!").map Token.line ≠ [1] := ⟨by decide, by decide⟩

/-- C8 (amended): token line numbers start at 0 and increase by one exactly
for each newline consumed while skipping whitespace (`take_whitespace` bumps
`line` on a newline byte and on nothing else); a newline consumed inside a
line comment does not increment the line, so tokens after a line comment carry
the unincremented line; the three tokens of `"*\n!\n."` still carry lines 0,
1, 2. -/
theorem C8_line_tracking_amended :
    (∀ source : String, (Tok.new source).line = 0) ∧
    (∀ (fuel : Nat) (t : Tok) (c : Char), t.peekByte = some c → isAsciiWhitespace c = true →
      Tok.takeWhitespace (fuel + 1) t =
        Tok.takeWhitespace fuel ((if isNewlineByte c then t.advanceLine else t).advanceByte)) ∧
    (∀ (fuel : Nat) (t : Tok) (c : Char), t.peekByte = some c → isAsciiWhitespace c = false →
      Tok.takeWhitespace (fuel + 1) t = t) ∧
    (∀ (fuel : Nat) (t : Tok), (Tok.takeComment fuel t).line = t.line) ∧
    (tokenize "*\n!\n.").map Token.line = [0, 1, 2] ∧
    (tokenize "//c\n!").map Token.kind = [.Bang] ∧
    (tokenize "//c\n!").map Token.line = [0] := by
  refine ⟨fun source => rfl, ?_, ?_, Tok.takeComment_line, by decide, by decide, by decide⟩
  · intro fuel t c h hws
    simp [Tok.takeWhitespace, h, hws]
  · intro fuel t c h hws
    simp [Tok.takeWhitespace, h, hws]

/-- C8 witness: the step equations at a concrete newline and a concrete
non-whitespace byte. -/
theorem C8_line_tracking_amended_witness :
    Tok.takeWhitespace 2 ⟨['\n', '!'], 0, 0, 0⟩ =
      Tok.takeWhitespace 1 ⟨['\n', '!'], 0, 1, 1⟩ ∧
    Tok.takeWhitespace 3 ⟨['!'], 0, 0, 0⟩ = ⟨['!'], 0, 0, 0⟩ := by
  constructor
  · have h := C8_line_tracking_amended.2.1 1 ⟨['\n', '!'], 0, 0, 0⟩ '\n' (by decide) (by decide)
    simpa [Tok.advanceLine, Tok.advanceByte, isNewlineByte] using h
  · have h := C8_line_tracking_amended.2.2.1 2 ⟨['!'], 0, 0, 0⟩ '!' (by decide) (by decide)
    simpa using h

/-- C9 counterexample: the messaged failure "Expected variable name" (from
compiling `var 1;`) is reported as `RuntimeErrorWithReason` — a runtime-error
kind — and not as any `CompileError`. -/
theorem C9_error_kind_counterexample :
    compileSource "var 1;" =
      .ok (.error (.RuntimeErrorWithReason "Expected variable name")) ∧
    ∀ r : CompilationErrorReason,
      (InterpretError.RuntimeErrorWithReason "Expected variable name") ≠ .CompileError r :=
  ⟨by decide, fun r h => InterpretError.noConfusion h⟩

/-- C9 (amended): every messaged compilation failure in the taxonomy —
"Already a variable with this name in this scope", "Invalid assignment
target", "Expected variable name", and the "Expect '(' / ')' / ... after …"
family produced by `expect`/`expect_advance` — is reported as the
`RuntimeErrorWithReason` (runtime-error) kind of `InterpretError`, not as the
`CompileError` kind. -/
theorem C9_error_kind_amended :
    (∀ (st : PState) (t : Token) (k : TokenKind) (msg : String),
      st.current = some t → t.kind ≠ k →
      Parser.expectAdvance k msg st = .ok (.error (.RuntimeErrorWithReason msg), st)) ∧
    (∀ (st : PState) (t : Token) (k : TokenKind) (msg : String),
      st.current = some t → t.kind ≠ k →
      Parser.expect k msg st = .ok (.error (.RuntimeErrorWithReason msg), st)) ∧
    (∀ (c : Compiler) (name : String), c.isInScopeNameCollision name = true →
      c.addLocalVar name =
        .error (.RuntimeErrorWithReason "Already a variable with this name in this scope")) ∧
    (∀ (st : PState) (t : Token), st.current = some t → t.kind ≠ .Identifier →
      Parser.parseVarName st =
        .ok (.error (.RuntimeErrorWithReason "Expected variable name"),
          { st with rest := st.rest.tail, current := st.rest.head?,
                    line := match st.rest.head? with
                            | some token => token.line
                            | none => st.line })) ∧
    compileSource "1 * b = 2;" =
      .ok (.error (.RuntimeErrorWithReason "Invalid assignment target")) ∧
    compileSource "if true;" =
      .ok (.error (.RuntimeErrorWithReason "Expect '(' after if")) := by
  refine ⟨?_, ?_, ?_, ?_, by decide, by decide⟩
  · intro st t k msg h hk
    simp [Parser.expectAdvance, Parser.currentTok, EM.get, EM.throw, bind, pure, h,
      show (t.kind == k) = false from by simp [hk]]
  · intro st t k msg h hk
    simp [Parser.expect, Parser.currentTok, EM.get, EM.throw, bind, pure, h,
      show (t.kind == k) = false from by simp [hk]]
  · intro c name h
    simp [Compiler.addLocalVar, h]
  · intro st t h hk
    simp [Parser.parseVarName, Parser.currentTok, Parser.advance, EM.get, EM.modify, EM.throw,
      bind, pure, h, show (t.kind == TokenKind.Identifier) = false from by simp [hk]]

/-- C9 witness: concrete instances — a mismatched `expect_advance`, a scope
collision, and a non-identifier variable name. -/
theorem C9_error_kind_amended_witness :
    Parser.expectAdvance .Semicolon "Expected ';' after value"
        ⟨[], some ⟨.Number, "1", 0, 0⟩, 0, Compiler.new, Chunk.new⟩ =
      .ok (.error (.RuntimeErrorWithReason "Expected ';' after value"),
        ⟨[], some ⟨.Number, "1", 0, 0⟩, 0, Compiler.new, Chunk.new⟩) ∧
    Compiler.addLocalVar ⟨[⟨"a", 1⟩], 1⟩ "a" =
      .error (.RuntimeErrorWithReason "Already a variable with this name in this scope") ∧
    Parser.parseVarName ⟨[], some ⟨.Number, "1", 0, 0⟩, 0, Compiler.new, Chunk.new⟩ =
      .ok (.error (.RuntimeErrorWithReason "Expected variable name"),
        ⟨[], none, 0, Compiler.new, Chunk.new⟩) := by
  refine ⟨?_, ?_, ?_⟩
  · exact C9_error_kind_amended.1 _ ⟨.Number, "1", 0, 0⟩ .Semicolon _ rfl (by decide)
  · exact C9_error_kind_amended.2.2.1 ⟨[⟨"a", 1⟩], 1⟩ "a" (by decide)
  · have h := C9_error_kind_amended.2.2.2.1
      ⟨[], some ⟨.Number, "1", 0, 0⟩, 0, Compiler.new, Chunk.new⟩ ⟨.Number, "1", 0, 0⟩
      rfl (by decide)
    simpa using h

/-- C1 counterexample: the bare expression `1` — a statement whose leading
token is none of print, `{`, if, while, for, var — compiles successfully with
NO trailing `;` in the source, and the emitted bytecode contains no POP. -/
theorem C1_expression_statement_counterexample :
    compileSource "1" =
      .ok (.ok ⟨[0, 0, 25], [.number ⟨1, 1⟩], [], [0, 0, 0]⟩) ∧
    ¬(OpCode.Pop.toByte ∈ ([0, 0, 25] : List Nat)) ∧
    ¬(TokenKind.Semicolon ∈ (tokenize "1").map Token.kind) := ⟨by decide, by decide, by decide⟩

/-- C1 (amended): for every statement whose leading token is not print, `{`,
if, while, for, or var, the compiler parses it as a BARE expression — the
dispatch falls through `parse_declaration` to `parse_statement`, whose default
arm calls `parse_expression(0)` (not `parse_expression_statement`): no
trailing `;` is required and no POP is emitted, as the compilation of `1`
shows concretely. -/
theorem C1_statement_fallback_amended :
    (∀ (fuel : Nat) (st : PState) (t : Token), st.current = some t → t.kind ≠ .Var →
      parseStep (fuel + 1) .pDeclaration st = parseStep fuel .pStatement st) ∧
    (∀ (fuel : Nat) (st : PState) (t : Token), st.current = some t →
      t.kind ≠ .Print → t.kind ≠ .LeftBrace → t.kind ≠ .If → t.kind ≠ .While → t.kind ≠ .For →
      parseStep (fuel + 1) .pStatement st = parseStep fuel (.pExpression 0) st) ∧
    compileSource "1" =
      .ok (.ok ⟨[0, 0, 25], [.number ⟨1, 1⟩], [], [0, 0, 0]⟩) ∧
    ¬(OpCode.Pop.toByte ∈ ([0, 0, 25] : List Nat)) := by
  refine ⟨?_, ?_, by decide, by decide⟩
  · intro fuel st t h hv
    cases htk : t.kind <;>
      simp_all [parseStep, Parser.currentTok, EM.get, bind, pure]
  · intro fuel st t h h1 h2 h3 h4 h5
    cases htk : t.kind <;>
      simp_all [parseStep, Parser.currentTok, EM.get, bind, pure]

/-- C1 witness: the dispatch equations applied to a Number-headed statement. -/
theorem C1_statement_fallback_amended_witness :
    parseStep 2 .pDeclaration ⟨[], some ⟨.Number, "1", 0, 0⟩, 0, Compiler.new, Chunk.new⟩ =
      parseStep 1 .pStatement ⟨[], some ⟨.Number, "1", 0, 0⟩, 0, Compiler.new, Chunk.new⟩ ∧
    parseStep 2 .pStatement ⟨[], some ⟨.Number, "1", 0, 0⟩, 0, Compiler.new, Chunk.new⟩ =
      parseStep 1 (.pExpression 0) ⟨[], some ⟨.Number, "1", 0, 0⟩, 0, Compiler.new, Chunk.new⟩ :=
  ⟨C1_statement_fallback_amended.1 1 _ ⟨.Number, "1", 0, 0⟩ rfl (by decide),
   C1_statement_fallback_amended.2.1 1 _ ⟨.Number, "1", 0, 0⟩ rfl
     (by decide) (by decide) (by decide) (by decide) (by decide)⟩


/-- One iteration of the top-level `while current.is_some` parse loop. -/
lemma pProgramLoop_step (f : Nat) (st st1 : PState) (t : Token)
    (hc : st.current = some t)
    (hd : parseStep f .pDeclaration st = .ok (.ok (), st1)) :
    parseStep (f + 1) .pProgramLoop st = parseStep f .pProgramLoop st1 := by
  simp [parseStep, EM.get, bind, pure, hc, hd]

/-- The top-level parse loop stops when the token stream is exhausted. -/
lemma pProgramLoop_done (f : Nat) (st : PState) (hc : st.current = none) :
    parseStep (f + 1) .pProgramLoop st = .ok (.ok (), st) := by
  simp [parseStep, EM.get, bind, pure, hc]

/-- One iteration of the block-body parse loop. -/
lemma pBlockLoop_step (f : Nat) (st st1 : PState) (t : Token)
    (hc : st.current = some t) (h1 : t.isKind .RightBrace = false) (h2 : t.isKind .Eof = false)
    (hd : parseStep f .pDeclaration st = .ok (.ok (), st1)) :
    parseStep (f + 1) .pBlockLoop st = parseStep f .pBlockLoop st1 := by
  simp [parseStep, Parser.currentTok, EM.get, bind, pure, hc, h1, h2, hd]

/-- The block-body loop stops at the closing brace. -/
lemma pBlockLoop_done (f : Nat) (st : PState) (t : Token)
    (hc : st.current = some t) (h1 : t.isKind .RightBrace = true) :
    parseStep (f + 1) .pBlockLoop st = .ok (.ok (), st) := by
  simp [parseStep, Parser.currentTok, EM.get, bind, pure, hc, h1]

/-- `parse_declaration` falls through to `parse_statement` on every leading
token other than `var`. -/
lemma pDeclaration_dispatch (f : Nat) (st : PState) (t : Token)
    (hc : st.current = some t) (hv : t.kind ≠ .Var) :
    parseStep (f + 1) .pDeclaration st = parseStep f .pStatement st := by
  cases htk : t.kind <;> simp_all [parseStep, Parser.currentTok, EM.get, bind, pure]

/-- `parse_statement` dispatches a leading `{` to `parse_block`. -/
lemma pStatement_block (f : Nat) (st : PState) (t : Token)
    (hc : st.current = some t) (htk : t.kind = .LeftBrace) :
    parseStep (f + 1) .pStatement st = parseStep f .pBlock st := by
  simp [parseStep, Parser.currentTok, EM.get, bind, pure, hc, htk]

/-- `parse_block` decomposed: consume the `{`, open the scope, run the body
loop, then close the scope, emit the POPs and expect the `}`. -/
lemma pBlock_comp (f : Nat) (st stB st3 : PState) (count : Nat) (comp : Compiler)
    (r : Except Panicked (Except InterpretError Unit × PState))
    (h1 : Parser.advance st = .ok (.ok (), stB))
    (h2 : parseStep f .pBlockLoop { stB with compiler := stB.compiler.beginScope } =
      .ok (.ok (), st3))
    (h3 : st3.compiler.endScope = .ok (count, comp))
    (h4 : (Parser.emitPops count >>= fun _ =>
          EM.swallow (Parser.expectAdvance .RightBrace "Expect '\x7d' after block"))
        { st3 with compiler := comp } = r) :
    parseStep (f + 1) .pBlock st = r := by
  simp only [bind] at h4
  simp [parseStep, bind, pure, EM.get, EM.set, EM.modify, h1, h2, h3, h4]

/-- One fetch-decode-execute iteration of `Vm::run` that does not return. -/
lemma runLoop_step (n : Nat) (st st1 st2 : VmState) (op : OpCode)
    (h1 : Vm.readDecode st = .ok (.ok op, st1))
    (h2 : Vm.execOp op st1 = .ok (.ok none, st2)) :
    Vm.runLoop (n + 1) st = Vm.runLoop n st2 := by
  simp [Vm.runLoop, bind, pure, h1, h2]

/-- The final iteration of `Vm::run`: RETURN breaks with the popped value. -/
lemma runLoop_done (n : Nat) (st st1 st2 : VmState) (op : OpCode) (v : Value)
    (h1 : Vm.readDecode st = .ok (.ok op, st1))
    (h2 : Vm.execOp op st1 = .ok (.ok (some v), st2)) :
    Vm.runLoop (n + 1) st = .ok (.ok v, st2) := by
  simp [Vm.runLoop, bind, pure, h1, h2]

/-- The scope-discipline test program of the spec (claim C2). -/
def c2source : String := "var z; \x7b var x; var y; x = 10; y = 20; z = x + y; \x7d return z;"

/-- Its token stream (proved below to equal `tokenize c2source`). -/
def c2tokens : List Token :=
  [⟨.Var, "var", 0, 0⟩, ⟨.Identifier, "z", 4, 0⟩, ⟨.Semicolon, ";", 5, 0⟩,
   ⟨.LeftBrace, "\x7b", 7, 0⟩,
   ⟨.Var, "var", 9, 0⟩, ⟨.Identifier, "x", 13, 0⟩, ⟨.Semicolon, ";", 14, 0⟩,
   ⟨.Var, "var", 16, 0⟩, ⟨.Identifier, "y", 20, 0⟩, ⟨.Semicolon, ";", 21, 0⟩,
   ⟨.Identifier, "x", 23, 0⟩, ⟨.Equal, "=", 25, 0⟩, ⟨.Number, "10", 27, 0⟩,
   ⟨.Semicolon, ";", 29, 0⟩,
   ⟨.Identifier, "y", 31, 0⟩, ⟨.Equal, "=", 33, 0⟩, ⟨.Number, "20", 35, 0⟩,
   ⟨.Semicolon, ";", 37, 0⟩,
   ⟨.Identifier, "z", 39, 0⟩, ⟨.Equal, "=", 41, 0⟩, ⟨.Identifier, "x", 43, 0⟩,
   ⟨.Plus, "+", 45, 0⟩, ⟨.Identifier, "y", 47, 0⟩, ⟨.Semicolon, ";", 48, 0⟩,
   ⟨.RightBrace, "\x7d", 50, 0⟩,
   ⟨.Return, "return", 52, 0⟩, ⟨.Identifier, "z", 59, 0⟩, ⟨.Semicolon, ";", 60, 0⟩]

/-- The chunk the compiler produces for `c2source` (proved below). -/
def c2chunk : Chunk :=
  ⟨[1, 16, 0, 1, 1, 0, 0, 20, 0, 0, 1, 20, 1, 19, 0, 19, 1, 9, 18, 1, 15, 15, 17, 2, 25, 25],
   [.number ⟨10, 1⟩, .number ⟨20, 1⟩],
   ["z", "z", "z"],
   [0, 0, 0, 0, 0, 0, 0, 0, 0, 0, 0, 0, 0, 0, 0, 0, 0, 0, 0, 0, 0, 0, 0, 0, 0, 0]⟩

/-- Parser state after loading the first token. -/
def c2stA : PState :=
  ⟨c2tokens.drop 1, some ⟨.Var, "var", 0, 0⟩, 0, ⟨[], 0⟩, ⟨[], [], [], []⟩⟩

/-- Parser state after `var z;`. -/
def c2st1 : PState :=
  ⟨c2tokens.drop 4, some ⟨.LeftBrace, "\x7b", 7, 0⟩, 0, ⟨[], 0⟩, ⟨[1, 16, 0], [], ["z"], [0, 0, 0]⟩⟩

/-- Parser state after consuming the `{`. -/
def c2stB0 : PState :=
  ⟨c2tokens.drop 5, some ⟨.Var, "var", 9, 0⟩, 0, ⟨[], 0⟩, ⟨[1, 16, 0], [], ["z"], [0, 0, 0]⟩⟩

/-- Parser state after `var x;` inside the block (scope open). -/
def c2sx1 : PState :=
  ⟨c2tokens.drop 8, some ⟨.Var, "var", 16, 0⟩, 0, ⟨[⟨"x", 1⟩], 1⟩,
   ⟨[1, 16, 0, 1], [], ["z"], [0, 0, 0, 0]⟩⟩

/-- Parser state after `var y;`. -/
def c2sx2 : PState :=
  ⟨c2tokens.drop 11, some ⟨.Identifier, "x", 23, 0⟩, 0, ⟨[⟨"x", 1⟩, ⟨"y", 1⟩], 1⟩,
   ⟨[1, 16, 0, 1, 1], [], ["z"], [0, 0, 0, 0, 0]⟩⟩

/-- Parser state after `x = 10;`. -/
def c2sx3 : PState :=
  ⟨c2tokens.drop 15, some ⟨.Identifier, "y", 31, 0⟩, 0, ⟨[⟨"x", 1⟩, ⟨"y", 1⟩], 1⟩,
   ⟨[1, 16, 0, 1, 1, 0, 0, 20, 0], [.number ⟨10, 1⟩], ["z"],
    [0, 0, 0, 0, 0, 0, 0, 0, 0]⟩⟩

/-- Parser state after `y = 20;`. -/
def c2sx4 : PState :=
  ⟨c2tokens.drop 19, some ⟨.Identifier, "z", 39, 0⟩, 0, ⟨[⟨"x", 1⟩, ⟨"y", 1⟩], 1⟩,
   ⟨[1, 16, 0, 1, 1, 0, 0, 20, 0, 0, 1, 20, 1], [.number ⟨10, 1⟩, .number ⟨20, 1⟩], ["z"],
    [0, 0, 0, 0, 0, 0, 0, 0, 0, 0, 0, 0, 0]⟩⟩

/-- Parser state after `z = x + y;`. -/
def c2sx5 : PState :=
  ⟨c2tokens.drop 25, some ⟨.RightBrace, "\x7d", 50, 0⟩, 0, ⟨[⟨"x", 1⟩, ⟨"y", 1⟩], 1⟩,
   ⟨[1, 16, 0, 1, 1, 0, 0, 20, 0, 0, 1, 20, 1, 19, 0, 19, 1, 9, 18, 1],
    [.number ⟨10, 1⟩, .number ⟨20, 1⟩], ["z", "z"],
    [0, 0, 0, 0, 0, 0, 0, 0, 0, 0, 0, 0, 0, 0, 0, 0, 0, 0, 0, 0]⟩⟩

/-- Parser state after the whole block (locals popped, `}` consumed). -/
def c2st2 : PState :=
  ⟨c2tokens.drop 26, some ⟨.Return, "return", 52, 0⟩, 0, ⟨[], 0⟩,
   ⟨[1, 16, 0, 1, 1, 0, 0, 20, 0, 0, 1, 20, 1, 19, 0, 19, 1, 9, 18, 1, 15, 15],
    [.number ⟨10, 1⟩, .number ⟨20, 1⟩], ["z", "z"],
    [0, 0, 0, 0, 0, 0, 0, 0, 0, 0, 0, 0, 0, 0, 0, 0, 0, 0, 0, 0, 0, 0]⟩⟩

/-- Parser state after `return z;` (all tokens consumed). -/
def c2st3 : PState :=
  ⟨[], none, 0, ⟨[], 0⟩,
   ⟨[1, 16, 0, 1, 1, 0, 0, 20, 0, 0, 1, 20, 1, 19, 0, 19, 1, 9, 18, 1, 15, 15, 17, 2, 25],
    [.number ⟨10, 1⟩, .number ⟨20, 1⟩], ["z", "z", "z"],
    [0, 0, 0, 0, 0, 0, 0, 0, 0, 0, 0, 0, 0, 0, 0, 0, 0, 0, 0, 0, 0, 0, 0, 0, 0]⟩⟩

/-- Final parser state, once `end` has appended the trailing RETURN. -/
def c2stF : PState := ⟨[], none, 0, ⟨[], 0⟩, c2chunk⟩

/-- VM state over `c2chunk`: `c2v stack globals ip` (the heap stays empty). -/
def c2v (stack : VStack) (globals : Globals) (ip : Nat) : VmState :=
  ⟨c2chunk, stack, [], globals, ip⟩

/-- The compiler output on the C2 program, established declaration by
declaration. -/
lemma c2_parse : Parser.parseTokens parseFuel c2tokens = .ok (.ok c2chunk) := by
  have d1 : parseStep 3999 .pDeclaration c2stA = .ok (.ok (), c2st1) := by decide
  have dx1 : parseStep 3994 .pDeclaration
      { c2stB0 with compiler := c2stB0.compiler.beginScope } = .ok (.ok (), c2sx1) := by decide
  have dx2 : parseStep 3993 .pDeclaration c2sx1 = .ok (.ok (), c2sx2) := by decide
  have dx3 : parseStep 3992 .pDeclaration c2sx2 = .ok (.ok (), c2sx3) := by decide
  have dx4 : parseStep 3991 .pDeclaration c2sx3 = .ok (.ok (), c2sx4) := by decide
  have dx5 : parseStep 3990 .pDeclaration c2sx4 = .ok (.ok (), c2sx5) := by decide
  have hb2 : parseStep 3995 .pBlockLoop
      { c2stB0 with compiler := c2stB0.compiler.beginScope } = .ok (.ok (), c2sx5) := by
    have s1 : parseStep 3995 .pBlockLoop
        { c2stB0 with compiler := c2stB0.compiler.beginScope } =
        parseStep 3994 .pBlockLoop c2sx1 :=
      pBlockLoop_step 3994 _ c2sx1 ⟨.Var, "var", 9, 0⟩ (by decide) (by decide) (by decide) dx1
    have s2 : parseStep 3994 .pBlockLoop c2sx1 = parseStep 3993 .pBlockLoop c2sx2 :=
      pBlockLoop_step 3993 c2sx1 c2sx2 ⟨.Var, "var", 16, 0⟩ (by decide) (by decide) (by decide) dx2
    have s3 : parseStep 3993 .pBlockLoop c2sx2 = parseStep 3992 .pBlockLoop c2sx3 :=
      pBlockLoop_step 3992 c2sx2 c2sx3 ⟨.Identifier, "x", 23, 0⟩ (by decide) (by decide)
        (by decide) dx3
    have s4 : parseStep 3992 .pBlockLoop c2sx3 = parseStep 3991 .pBlockLoop c2sx4 :=
      pBlockLoop_step 3991 c2sx3 c2sx4 ⟨.Identifier, "y", 31, 0⟩ (by decide) (by decide)
        (by decide) dx4
    have s5 : parseStep 3991 .pBlockLoop c2sx4 = parseStep 3990 .pBlockLoop c2sx5 :=
      pBlockLoop_step 3990 c2sx4 c2sx5 ⟨.Identifier, "z", 39, 0⟩ (by decide) (by decide)
        (by decide) dx5
    have s6 : parseStep 3990 .pBlockLoop c2sx5 = .ok (.ok (), c2sx5) :=
      pBlockLoop_done 3989 c2sx5 ⟨.RightBrace, "\x7d", 50, 0⟩ (by decide) (by decide)
    exact s1.trans (s2.trans (s3.trans (s4.trans (s5.trans s6))))
  have hb1 : Parser.advance c2st1 = .ok (.ok (), c2stB0) := by decide
  have hb3 : c2sx5.compiler.endScope = .ok (2, (⟨[], 0⟩ : Compiler)) := by decide
  have hb4 : (Parser.emitPops 2 >>= fun _ =>
      EM.swallow (Parser.expectAdvance .RightBrace "Expect '\x7d' after block"))
      { c2sx5 with compiler := (⟨[], 0⟩ : Compiler) } = .ok (.ok (), c2st2) := by decide
  have d2 : parseStep 3998 .pDeclaration c2st1 = .ok (.ok (), c2st2) := by
    have e1 : parseStep 3998 .pDeclaration c2st1 = parseStep 3997 .pStatement c2st1 :=
      pDeclaration_dispatch 3997 c2st1 ⟨.LeftBrace, "\x7b", 7, 0⟩ (by decide) (by decide)
    have e2 : parseStep 3997 .pStatement c2st1 = parseStep 3996 .pBlock c2st1 :=
      pStatement_block 3996 c2st1 ⟨.LeftBrace, "\x7b", 7, 0⟩ (by decide) (by decide)
    have e3 : parseStep 3996 .pBlock c2st1 = .ok (.ok (), c2st2) :=
      pBlock_comp 3995 c2st1 c2stB0 c2sx5 2 ⟨[], 0⟩ _ hb1 hb2 hb3 hb4
    exact e1.trans (e2.trans e3)
  have d3 : parseStep 3997 .pDeclaration c2st2 = .ok (.ok (), c2st3) := by decide
  have hloop : parseStep parseFuel .pProgramLoop c2stA = .ok (.ok (), c2st3) := by
    have l1 : parseStep 4000 .pProgramLoop c2stA = parseStep 3999 .pProgramLoop c2st1 :=
      pProgramLoop_step 3999 c2stA c2st1 ⟨.Var, "var", 0, 0⟩ (by decide) d1
    have l2 : parseStep 3999 .pProgramLoop c2st1 = parseStep 3998 .pProgramLoop c2st2 :=
      pProgramLoop_step 3998 c2st1 c2st2 ⟨.LeftBrace, "\x7b", 7, 0⟩ (by decide) d2
    have l3 : parseStep 3998 .pProgramLoop c2st2 = parseStep 3997 .pProgramLoop c2st3 :=
      pProgramLoop_step 3997 c2st2 c2st3 ⟨.Return, "return", 52, 0⟩ (by decide) d3
    have l4 : parseStep 3997 .pProgramLoop c2st3 = .ok (.ok (), c2st3) :=
      pProgramLoop_done 3996 c2st3 (by decide)
    exact l1.trans (l2.trans (l3.trans l4))
  have ha : Parser.advance (PState.new c2tokens) = .ok (.ok (), c2stA) := by decide
  have htail : (Parser.expectDone >>= fun _ => Parser.getLine >>= fun l =>
      Parser.emitReturn l) c2st3 = .ok (.ok (), c2stF) := by decide
  simp only [bind] at htail
  simp [Parser.parseTokens, bind, pure, ha, hloop, htail, c2stF]


/-- Executing `c2chunk` from a fresh VM, instruction by instruction: RETURN
pops Number(30) while the stack still holds 10, 20, 10. -/
lemma c2_run : Vm.runLoop vmFuel (VmState.new c2chunk) =
    .ok (.ok (Value.number ⟨30, 1⟩),
      c2v [Value.number ⟨10, 1⟩, Value.number ⟨20, 1⟩, Value.number ⟨10, 1⟩]
        [("z", Value.number ⟨30, 1⟩)] 25) := by
  have r1 : Vm.readDecode (c2v [] [] 0) = .ok (.ok .Nil, c2v [] [] 1) := by decide
  have x1 : Vm.execOp .Nil (c2v [] [] 1) = .ok (.ok none, c2v [Value.nil] [] 1) := by decide
  have r2 : Vm.readDecode (c2v [Value.nil] [] 1) = .ok (.ok .DefineGlobal, c2v [Value.nil] [] 2) := by decide
  have x2 : Vm.execOp .DefineGlobal (c2v [Value.nil] [] 2) = .ok (.ok none, c2v [] [("z", Value.nil)] 3) := by decide
  have r3 : Vm.readDecode (c2v [] [("z", Value.nil)] 3) = .ok (.ok .Nil, c2v [] [("z", Value.nil)] 4) := by decide
  have x3 : Vm.execOp .Nil (c2v [] [("z", Value.nil)] 4) = .ok (.ok none, c2v [Value.nil] [("z", Value.nil)] 4) := by decide
  have r4 : Vm.readDecode (c2v [Value.nil] [("z", Value.nil)] 4) = .ok (.ok .Nil, c2v [Value.nil] [("z", Value.nil)] 5) := by decide
  have x4 : Vm.execOp .Nil (c2v [Value.nil] [("z", Value.nil)] 5) = .ok (.ok none, c2v [Value.nil, Value.nil] [("z", Value.nil)] 5) := by decide
  have r5 : Vm.readDecode (c2v [Value.nil, Value.nil] [("z", Value.nil)] 5) = .ok (.ok .Constant, c2v [Value.nil, Value.nil] [("z", Value.nil)] 6) := by decide
  have x5 : Vm.execOp .Constant (c2v [Value.nil, Value.nil] [("z", Value.nil)] 6) = .ok (.ok none, c2v [Value.nil, Value.nil, Value.number ⟨10, 1⟩] [("z", Value.nil)] 7) := by decide
  have r6 : Vm.readDecode (c2v [Value.nil, Value.nil, Value.number ⟨10, 1⟩] [("z", Value.nil)] 7) = .ok (.ok .SetLocal, c2v [Value.nil, Value.nil, Value.number ⟨10, 1⟩] [("z", Value.nil)] 8) := by decide
  have x6 : Vm.execOp .SetLocal (c2v [Value.nil, Value.nil, Value.number ⟨10, 1⟩] [("z", Value.nil)] 8) = .ok (.ok none, c2v [Value.number ⟨10, 1⟩, Value.nil, Value.number ⟨10, 1⟩] [("z", Value.nil)] 9) := by decide
  have r7 : Vm.readDecode (c2v [Value.number ⟨10, 1⟩, Value.nil, Value.number ⟨10, 1⟩] [("z", Value.nil)] 9) = .ok (.ok .Constant, c2v [Value.number ⟨10, 1⟩, Value.nil, Value.number ⟨10, 1⟩] [("z", Value.nil)] 10) := by decide
  have x7 : Vm.execOp .Constant (c2v [Value.number ⟨10, 1⟩, Value.nil, Value.number ⟨10, 1⟩] [("z", Value.nil)] 10) = .ok (.ok none, c2v [Value.number ⟨10, 1⟩, Value.nil, Value.number ⟨10, 1⟩, Value.number ⟨20, 1⟩] [("z", Value.nil)] 11) := by decide
  have r8 : Vm.readDecode (c2v [Value.number ⟨10, 1⟩, Value.nil, Value.number ⟨10, 1⟩, Value.number ⟨20, 1⟩] [("z", Value.nil)] 11) = .ok (.ok .SetLocal, c2v [Value.number ⟨10, 1⟩, Value.nil, Value.number ⟨10, 1⟩, Value.number ⟨20, 1⟩] [("z", Value.nil)] 12) := by decide
  have x8 : Vm.execOp .SetLocal (c2v [Value.number ⟨10, 1⟩, Value.nil, Value.number ⟨10, 1⟩, Value.number ⟨20, 1⟩] [("z", Value.nil)] 12) = .ok (.ok none, c2v [Value.number ⟨10, 1⟩, Value.number ⟨20, 1⟩, Value.number ⟨10, 1⟩, Value.number ⟨20, 1⟩] [("z", Value.nil)] 13) := by decide
  have r9 : Vm.readDecode (c2v [Value.number ⟨10, 1⟩, Value.number ⟨20, 1⟩, Value.number ⟨10, 1⟩, Value.number ⟨20, 1⟩] [("z", Value.nil)] 13) = .ok (.ok .GetLocal, c2v [Value.number ⟨10, 1⟩, Value.number ⟨20, 1⟩, Value.number ⟨10, 1⟩, Value.number ⟨20, 1⟩] [("z", Value.nil)] 14) := by decide
  have x9 : Vm.execOp .GetLocal (c2v [Value.number ⟨10, 1⟩, Value.number ⟨20, 1⟩, Value.number ⟨10, 1⟩, Value.number ⟨20, 1⟩] [("z", Value.nil)] 14) = .ok (.ok none, c2v [Value.number ⟨10, 1⟩, Value.number ⟨20, 1⟩, Value.number ⟨10, 1⟩, Value.number ⟨20, 1⟩, Value.number ⟨10, 1⟩] [("z", Value.nil)] 15) := by decide
  have r10 : Vm.readDecode (c2v [Value.number ⟨10, 1⟩, Value.number ⟨20, 1⟩, Value.number ⟨10, 1⟩, Value.number ⟨20, 1⟩, Value.number ⟨10, 1⟩] [("z", Value.nil)] 15) = .ok (.ok .GetLocal, c2v [Value.number ⟨10, 1⟩, Value.number ⟨20, 1⟩, Value.number ⟨10, 1⟩, Value.number ⟨20, 1⟩, Value.number ⟨10, 1⟩] [("z", Value.nil)] 16) := by decide
  have x10 : Vm.execOp .GetLocal (c2v [Value.number ⟨10, 1⟩, Value.number ⟨20, 1⟩, Value.number ⟨10, 1⟩, Value.number ⟨20, 1⟩, Value.number ⟨10, 1⟩] [("z", Value.nil)] 16) = .ok (.ok none, c2v [Value.number ⟨10, 1⟩, Value.number ⟨20, 1⟩, Value.number ⟨10, 1⟩, Value.number ⟨20, 1⟩, Value.number ⟨10, 1⟩, Value.number ⟨20, 1⟩] [("z", Value.nil)] 17) := by decide
  have r11 : Vm.readDecode (c2v [Value.number ⟨10, 1⟩, Value.number ⟨20, 1⟩, Value.number ⟨10, 1⟩, Value.number ⟨20, 1⟩, Value.number ⟨10, 1⟩, Value.number ⟨20, 1⟩] [("z", Value.nil)] 17) = .ok (.ok .Add, c2v [Value.number ⟨10, 1⟩, Value.number ⟨20, 1⟩, Value.number ⟨10, 1⟩, Value.number ⟨20, 1⟩, Value.number ⟨10, 1⟩, Value.number ⟨20, 1⟩] [("z", Value.nil)] 18) := by decide
  have x11 : Vm.execOp .Add (c2v [Value.number ⟨10, 1⟩, Value.number ⟨20, 1⟩, Value.number ⟨10, 1⟩, Value.number ⟨20, 1⟩, Value.number ⟨10, 1⟩, Value.number ⟨20, 1⟩] [("z", Value.nil)] 18) = .ok (.ok none, c2v [Value.number ⟨10, 1⟩, Value.number ⟨20, 1⟩, Value.number ⟨10, 1⟩, Value.number ⟨20, 1⟩, Value.number ⟨30, 1⟩] [("z", Value.nil)] 18) := by decide
  have r12 : Vm.readDecode (c2v [Value.number ⟨10, 1⟩, Value.number ⟨20, 1⟩, Value.number ⟨10, 1⟩, Value.number ⟨20, 1⟩, Value.number ⟨30, 1⟩] [("z", Value.nil)] 18) = .ok (.ok .SetGlobal, c2v [Value.number ⟨10, 1⟩, Value.number ⟨20, 1⟩, Value.number ⟨10, 1⟩, Value.number ⟨20, 1⟩, Value.number ⟨30, 1⟩] [("z", Value.nil)] 19) := by decide
  have x12 : Vm.execOp .SetGlobal (c2v [Value.number ⟨10, 1⟩, Value.number ⟨20, 1⟩, Value.number ⟨10, 1⟩, Value.number ⟨20, 1⟩, Value.number ⟨30, 1⟩] [("z", Value.nil)] 19) = .ok (.ok none, c2v [Value.number ⟨10, 1⟩, Value.number ⟨20, 1⟩, Value.number ⟨10, 1⟩, Value.number ⟨20, 1⟩, Value.number ⟨30, 1⟩] [("z", Value.number ⟨30, 1⟩)] 20) := by decide
  have r13 : Vm.readDecode (c2v [Value.number ⟨10, 1⟩, Value.number ⟨20, 1⟩, Value.number ⟨10, 1⟩, Value.number ⟨20, 1⟩, Value.number ⟨30, 1⟩] [("z", Value.number ⟨30, 1⟩)] 20) = .ok (.ok .Pop, c2v [Value.number ⟨10, 1⟩, Value.number ⟨20, 1⟩, Value.number ⟨10, 1⟩, Value.number ⟨20, 1⟩, Value.number ⟨30, 1⟩] [("z", Value.number ⟨30, 1⟩)] 21) := by decide
  have x13 : Vm.execOp .Pop (c2v [Value.number ⟨10, 1⟩, Value.number ⟨20, 1⟩, Value.number ⟨10, 1⟩, Value.number ⟨20, 1⟩, Value.number ⟨30, 1⟩] [("z", Value.number ⟨30, 1⟩)] 21) = .ok (.ok none, c2v [Value.number ⟨10, 1⟩, Value.number ⟨20, 1⟩, Value.number ⟨10, 1⟩, Value.number ⟨20, 1⟩] [("z", Value.number ⟨30, 1⟩)] 21) := by decide
  have r14 : Vm.readDecode (c2v [Value.number ⟨10, 1⟩, Value.number ⟨20, 1⟩, Value.number ⟨10, 1⟩, Value.number ⟨20, 1⟩] [("z", Value.number ⟨30, 1⟩)] 21) = .ok (.ok .Pop, c2v [Value.number ⟨10, 1⟩, Value.number ⟨20, 1⟩, Value.number ⟨10, 1⟩, Value.number ⟨20, 1⟩] [("z", Value.number ⟨30, 1⟩)] 22) := by decide
  have x14 : Vm.execOp .Pop (c2v [Value.number ⟨10, 1⟩, Value.number ⟨20, 1⟩, Value.number ⟨10, 1⟩, Value.number ⟨20, 1⟩] [("z", Value.number ⟨30, 1⟩)] 22) = .ok (.ok none, c2v [Value.number ⟨10, 1⟩, Value.number ⟨20, 1⟩, Value.number ⟨10, 1⟩] [("z", Value.number ⟨30, 1⟩)] 22) := by decide
  have r15 : Vm.readDecode (c2v [Value.number ⟨10, 1⟩, Value.number ⟨20, 1⟩, Value.number ⟨10, 1⟩] [("z", Value.number ⟨30, 1⟩)] 22) = .ok (.ok .GetGlobal, c2v [Value.number ⟨10, 1⟩, Value.number ⟨20, 1⟩, Value.number ⟨10, 1⟩] [("z", Value.number ⟨30, 1⟩)] 23) := by decide
  have x15 : Vm.execOp .GetGlobal (c2v [Value.number ⟨10, 1⟩, Value.number ⟨20, 1⟩, Value.number ⟨10, 1⟩] [("z", Value.number ⟨30, 1⟩)] 23) = .ok (.ok none, c2v [Value.number ⟨10, 1⟩, Value.number ⟨20, 1⟩, Value.number ⟨10, 1⟩, Value.number ⟨30, 1⟩] [("z", Value.number ⟨30, 1⟩)] 24) := by decide
  have r16 : Vm.readDecode (c2v [Value.number ⟨10, 1⟩, Value.number ⟨20, 1⟩, Value.number ⟨10, 1⟩, Value.number ⟨30, 1⟩] [("z", Value.number ⟨30, 1⟩)] 24) = .ok (.ok .Return, c2v [Value.number ⟨10, 1⟩, Value.number ⟨20, 1⟩, Value.number ⟨10, 1⟩, Value.number ⟨30, 1⟩] [("z", Value.number ⟨30, 1⟩)] 25) := by decide
  have x16 : Vm.execOp .Return (c2v [Value.number ⟨10, 1⟩, Value.number ⟨20, 1⟩, Value.number ⟨10, 1⟩, Value.number ⟨30, 1⟩] [("z", Value.number ⟨30, 1⟩)] 25) = .ok (.ok (some (Value.number ⟨30, 1⟩)), c2v [Value.number ⟨10, 1⟩, Value.number ⟨20, 1⟩, Value.number ⟨10, 1⟩] [("z", Value.number ⟨30, 1⟩)] 25) := by decide
  have q1 : Vm.runLoop 4000 (c2v [] [] 0) = Vm.runLoop 3999 (c2v [Value.nil] [] 1) :=
    runLoop_step 3999 _ _ _ .Nil r1 x1
  have q2 : Vm.runLoop 3999 (c2v [Value.nil] [] 1) = Vm.runLoop 3998 (c2v [] [("z", Value.nil)] 3) :=
    runLoop_step 3998 _ _ _ .DefineGlobal r2 x2
  have q3 : Vm.runLoop 3998 (c2v [] [("z", Value.nil)] 3) = Vm.runLoop 3997 (c2v [Value.nil] [("z", Value.nil)] 4) :=
    runLoop_step 3997 _ _ _ .Nil r3 x3
  have q4 : Vm.runLoop 3997 (c2v [Value.nil] [("z", Value.nil)] 4) = Vm.runLoop 3996 (c2v [Value.nil, Value.nil] [("z", Value.nil)] 5) :=
    runLoop_step 3996 _ _ _ .Nil r4 x4
  have q5 : Vm.runLoop 3996 (c2v [Value.nil, Value.nil] [("z", Value.nil)] 5) = Vm.runLoop 3995 (c2v [Value.nil, Value.nil, Value.number ⟨10, 1⟩] [("z", Value.nil)] 7) :=
    runLoop_step 3995 _ _ _ .Constant r5 x5
  have q6 : Vm.runLoop 3995 (c2v [Value.nil, Value.nil, Value.number ⟨10, 1⟩] [("z", Value.nil)] 7) = Vm.runLoop 3994 (c2v [Value.number ⟨10, 1⟩, Value.nil, Value.number ⟨10, 1⟩] [("z", Value.nil)] 9) :=
    runLoop_step 3994 _ _ _ .SetLocal r6 x6
  have q7 : Vm.runLoop 3994 (c2v [Value.number ⟨10, 1⟩, Value.nil, Value.number ⟨10, 1⟩] [("z", Value.nil)] 9) = Vm.runLoop 3993 (c2v [Value.number ⟨10, 1⟩, Value.nil, Value.number ⟨10, 1⟩, Value.number ⟨20, 1⟩] [("z", Value.nil)] 11) :=
    runLoop_step 3993 _ _ _ .Constant r7 x7
  have q8 : Vm.runLoop 3993 (c2v [Value.number ⟨10, 1⟩, Value.nil, Value.number ⟨10, 1⟩, Value.number ⟨20, 1⟩] [("z", Value.nil)] 11) = Vm.runLoop 3992 (c2v [Value.number ⟨10, 1⟩, Value.number ⟨20, 1⟩, Value.number ⟨10, 1⟩, Value.number ⟨20, 1⟩] [("z", Value.nil)] 13) :=
    runLoop_step 3992 _ _ _ .SetLocal r8 x8
  have q9 : Vm.runLoop 3992 (c2v [Value.number ⟨10, 1⟩, Value.number ⟨20, 1⟩, Value.number ⟨10, 1⟩, Value.number ⟨20, 1⟩] [("z", Value.nil)] 13) = Vm.runLoop 3991 (c2v [Value.number ⟨10, 1⟩, Value.number ⟨20, 1⟩, Value.number ⟨10, 1⟩, Value.number ⟨20, 1⟩, Value.number ⟨10, 1⟩] [("z", Value.nil)] 15) :=
    runLoop_step 3991 _ _ _ .GetLocal r9 x9
  have q10 : Vm.runLoop 3991 (c2v [Value.number ⟨10, 1⟩, Value.number ⟨20, 1⟩, Value.number ⟨10, 1⟩, Value.number ⟨20, 1⟩, Value.number ⟨10, 1⟩] [("z", Value.nil)] 15) = Vm.runLoop 3990 (c2v [Value.number ⟨10, 1⟩, Value.number ⟨20, 1⟩, Value.number ⟨10, 1⟩, Value.number ⟨20, 1⟩, Value.number ⟨10, 1⟩, Value.number ⟨20, 1⟩] [("z", Value.nil)] 17) :=
    runLoop_step 3990 _ _ _ .GetLocal r10 x10
  have q11 : Vm.runLoop 3990 (c2v [Value.number ⟨10, 1⟩, Value.number ⟨20, 1⟩, Value.number ⟨10, 1⟩, Value.number ⟨20, 1⟩, Value.number ⟨10, 1⟩, Value.number ⟨20, 1⟩] [("z", Value.nil)] 17) = Vm.runLoop 3989 (c2v [Value.number ⟨10, 1⟩, Value.number ⟨20, 1⟩, Value.number ⟨10, 1⟩, Value.number ⟨20, 1⟩, Value.number ⟨30, 1⟩] [("z", Value.nil)] 18) :=
    runLoop_step 3989 _ _ _ .Add r11 x11
  have q12 : Vm.runLoop 3989 (c2v [Value.number ⟨10, 1⟩, Value.number ⟨20, 1⟩, Value.number ⟨10, 1⟩, Value.number ⟨20, 1⟩, Value.number ⟨30, 1⟩] [("z", Value.nil)] 18) = Vm.runLoop 3988 (c2v [Value.number ⟨10, 1⟩, Value.number ⟨20, 1⟩, Value.number ⟨10, 1⟩, Value.number ⟨20, 1⟩, Value.number ⟨30, 1⟩] [("z", Value.number ⟨30, 1⟩)] 20) :=
    runLoop_step 3988 _ _ _ .SetGlobal r12 x12
  have q13 : Vm.runLoop 3988 (c2v [Value.number ⟨10, 1⟩, Value.number ⟨20, 1⟩, Value.number ⟨10, 1⟩, Value.number ⟨20, 1⟩, Value.number ⟨30, 1⟩] [("z", Value.number ⟨30, 1⟩)] 20) = Vm.runLoop 3987 (c2v [Value.number ⟨10, 1⟩, Value.number ⟨20, 1⟩, Value.number ⟨10, 1⟩, Value.number ⟨20, 1⟩] [("z", Value.number ⟨30, 1⟩)] 21) :=
    runLoop_step 3987 _ _ _ .Pop r13 x13
  have q14 : Vm.runLoop 3987 (c2v [Value.number ⟨10, 1⟩, Value.number ⟨20, 1⟩, Value.number ⟨10, 1⟩, Value.number ⟨20, 1⟩] [("z", Value.number ⟨30, 1⟩)] 21) = Vm.runLoop 3986 (c2v [Value.number ⟨10, 1⟩, Value.number ⟨20, 1⟩, Value.number ⟨10, 1⟩] [("z", Value.number ⟨30, 1⟩)] 22) :=
    runLoop_step 3986 _ _ _ .Pop r14 x14
  have q15 : Vm.runLoop 3986 (c2v [Value.number ⟨10, 1⟩, Value.number ⟨20, 1⟩, Value.number ⟨10, 1⟩] [("z", Value.number ⟨30, 1⟩)] 22) = Vm.runLoop 3985 (c2v [Value.number ⟨10, 1⟩, Value.number ⟨20, 1⟩, Value.number ⟨10, 1⟩, Value.number ⟨30, 1⟩] [("z", Value.number ⟨30, 1⟩)] 24) :=
    runLoop_step 3985 _ _ _ .GetGlobal r15 x15
  have q16 : Vm.runLoop 3985 (c2v [Value.number ⟨10, 1⟩, Value.number ⟨20, 1⟩, Value.number ⟨10, 1⟩, Value.number ⟨30, 1⟩] [("z", Value.number ⟨30, 1⟩)] 24) = .ok (.ok (Value.number ⟨30, 1⟩), c2v [Value.number ⟨10, 1⟩, Value.number ⟨20, 1⟩, Value.number ⟨10, 1⟩] [("z", Value.number ⟨30, 1⟩)] 25) :=
    runLoop_done 3984 _ _ _ .Return (Value.number ⟨30, 1⟩) r16 x16
  exact (((((((((((((((q1).trans q2).trans q3).trans q4).trans q5).trans q6).trans q7).trans q8).trans q9).trans q10).trans q11).trans q12).trans q13).trans q14).trans q15).trans q16

/-- The full C2 pipeline: tokenize, compile, execute. -/
lemma c2_pipeline : interpretSource c2source =
    .ok (.ok (Value.number ⟨30, 1⟩,
      [Value.number ⟨10, 1⟩, Value.number ⟨20, 1⟩, Value.number ⟨10, 1⟩])) := by
  have hTok : tokenize c2source = c2tokens := by decide
  simp [interpretSource, compileSource, runChunk, hTok, c2_parse, c2_run, c2v]

/-- C2 counterexample: running
`var z; \x7b var x; var y; x = 10; y = 20; z = x + y; \x7d return z;` does yield
Number(30), but at the moment RETURN pops that result the operand stack still
holds three leftover values (the never-popped assignment results 10, 20, 10) —
it is not empty, contradicting the claim's second half. -/
theorem C2_scope_discipline_counterexample :
    interpretSource c2source =
      .ok (.ok (.number ⟨30, 1⟩,
        [.number ⟨10, 1⟩, .number ⟨20, 1⟩, .number ⟨10, 1⟩])) ∧
    ([Value.number ⟨10, 1⟩, .number ⟨20, 1⟩, .number ⟨10, 1⟩] : VStack) ≠ [] :=
  ⟨c2_pipeline, by decide⟩

/-- C2 (amended): compiling and executing
`var z; \x7b var x; var y; x = 10; y = 20; z = x + y; \x7d return z;` yields
Number(30), but when the RETURN opcode pops that result the operand stack is
NOT empty: it holds exactly the three values 10, 20, 10 left behind because
SET_LOCAL and SET_GLOBAL peek their operand and the statement dispatch never
emits the cleaning POP. -/
theorem C2_scope_discipline_amended :
    interpretSource c2source =
      .ok (.ok (.number ⟨30, 1⟩,
        [.number ⟨10, 1⟩, .number ⟨20, 1⟩, .number ⟨10, 1⟩])) ∧
    List.length ([Value.number ⟨10, 1⟩, .number ⟨20, 1⟩, .number ⟨10, 1⟩] : VStack) = 3 :=
  ⟨c2_pipeline, by decide⟩
